import Mathlib

/-!
Shallow embedding of `scripts/fetch_macro.py` from the
`developers_health_monitor` repository, together with proofs about the
claims on its specification.

Modelling conventions:
* Python strings are Lean `String`s (ASCII data in all relevant inputs).
* `pandas` cells are `Option String` (`none` models `NaN`).
* Floats are modelled as exact rationals (`ℚ`); every numeric fact the
  spec states is exact in binary floating point as well.
* The two external effectful collaborators (`pd.to_datetime` generic date
  parsing, `pd.to_numeric` cell coercion, the regex matcher used by row
  filters, the catalog search client and the CSV fetch client) are
  parameters of the embedded functions; theorems quantify over them.
* The two regular expressions of `normalize_period` and the word-token
  split of `score_package` are implemented directly over character lists
  with Python `re.search` semantics (leftmost start, greedy backtracking).
-/

namespace FetchMacro

set_option maxRecDepth 100000

/-- ASCII decimal digit test, Python `\d` on the ASCII inputs at hand. -/
def isDigitChar (c : Char) : Bool := '0' ≤ c && c ≤ '9'

/-- A digit that can denote a quarter, the regex class `[1-4]`. -/
def isQuarterDigit (c : Char) : Bool := c = '1' || c = '2' || c = '3' || c = '4'

/-- The letter `Q` case-insensitively, as in both quarter regexes (`re.I`). -/
def isQChar (c : Char) : Bool := c = 'Q' || c = 'q'

/-- Python `\w` (ASCII range): letters, digits and underscore. -/
def isWordChar (c : Char) : Bool :=
  isDigitChar c || ('a' ≤ c && c ≤ 'z') || ('A' ≤ c && c ≤ 'Z') || c = '_'

/-- Boolean contiguous-substring test, Python's `needle in hay`. -/
def isSubstr (needle : List Char) : List Char → Bool
  | [] => needle.isPrefixOf []
  | c :: rest => needle.isPrefixOf (c :: rest) || isSubstr needle rest

/-- Matches `\d{4}` at the head of the list, returning the four digit
characters and the remaining input. -/
def take4Digits : List Char → Option (List Char × List Char)
  | a :: b :: c :: d :: rest =>
      if isDigitChar a && isDigitChar b && isDigitChar c && isDigitChar d then
        some ([a, b, c, d], rest)
      else none
  | _ => none

/-- Matches `\D*Q([1-4])` (case-insensitive `Q`) at the head of the list
with greedy backtracking: the recursive call explores a longer `\D*` span
first, so the last eligible `Q[1-4]` inside the leading non-digit run wins,
exactly as Python's greedy `\D*` does. Returns the captured quarter digit. -/
def qTail : List Char → Option Char
  | c :: d :: rest =>
      if isDigitChar c then none
      else
        match qTail (d :: rest) with
        | some q => some q
        | none => if isQChar c && isQuarterDigit d then some d else none
  | _ => none

/-- `re.search(r"(\d{4})\D*Q([1-4])", raw, re.I)`: try every start
position from the left, matching four digits then `qTail`. Returns the
year digits and the quarter digit of the leftmost match. -/
def qSearch : List Char → Option (List Char × Char)
  | [] => none
  | c :: rest =>
      match
        (match take4Digits (c :: rest) with
         | some (y, tail) => (qTail tail).map (fun q => (y, q))
         | none => none) with
      | some r => some r
      | none => qSearch rest

/-- Matches `\D*([1-4])Q` at the head of the list. Since `[1-4]` is a
digit, the greedy `\D*` must consume the entire leading non-digit run and
the capture site is forced: the first digit must lie in `[1-4]` and be
followed by `Q`. -/
def altQTail : List Char → Option Char
  | c :: rest =>
      if isDigitChar c then
        match rest with
        | d :: _ => if isQuarterDigit c && isQChar d then some c else none
        | [] => none
      else altQTail rest
  | [] => none

/-- `re.search(r"(\d{4})\D*([1-4])Q", raw, re.I)`: leftmost match of four
digits followed by `altQTail`. -/
def altQSearch : List Char → Option (List Char × Char)
  | [] => none
  | c :: rest =>
      match
        (match take4Digits (c :: rest) with
         | some (y, tail) => (altQTail tail).map (fun q => (y, q))
         | none => none) with
      | some r => some r
      | none => altQSearch rest

/-- Trailing part of `\b(\d{4})\b`: four digits whose following character
(if any) is not a word character. -/
def yearTail (l : List Char) : Option (List Char) :=
  match take4Digits l with
  | some (y, rest) =>
      match rest with
      | [] => some y
      | r :: _ => if isWordChar r then none else some y
  | none => none

/-- Worker for `re.search(r"\b(\d{4})\b", raw)`. The boolean argument
records whether the previous character is a word character (in which case
there is no word boundary before the current position). -/
def yearSearchAux : Bool → List Char → Option (List Char)
  | _, [] => none
  | prevWord, c :: rest =>
      match (if prevWord then none else yearTail (c :: rest)) with
      | some y => some y
      | none => yearSearchAux (isWordChar c) rest

/-- `re.search(r"\b(\d{4})\b", raw)`: leftmost standalone 4-digit token. -/
def yearSearch (l : List Char) : Option (List Char) := yearSearchAux false l

/-- A parsed calendar date, the observable part of a `pandas.Timestamp`
as used by `normalize_period`. Fields are `Int` so that the Python
expression `(month - 1) // 3 + 1` (floor division) is `(month - 1) / 3 + 1`
on `Int` (Euclidean division agrees with floor for the positive divisor 3). -/
structure CalDate where
  year : Int
  month : Int
  day : Int
deriving DecidableEq, Repr

/-- Python `f"{n:04d}"`-style zero padding for naturals. -/
def padNat (w : Nat) (n : Nat) : String :=
  ⟨List.replicate (w - (toString n).length) '0'⟩ ++ toString n

/-- Python `f"{n:04d}"`-style zero padding for integers (the sign consumes
one character of the width, as in Python). -/
def padInt (w : Nat) (n : Int) : String :=
  if n < 0 then "-" ++ padNat (w - 1) n.natAbs else padNat w n.natAbs

/-- Embedding of `normalize_period(value, frequency)`.

`parse` is the external generic date parser
(`pd.to_datetime(raw, errors="coerce")`): `none` models `NaT`.
`value` is the raw cell: `none` models Python `None`/`NaN`, which the
source turns into `None` before stringifying; a `some` cell is stringified
and stripped. -/
def normalize_period (parse : String → Option CalDate) (value : Option String)
    (frequency : String) : Option String :=
  match value with
  | none => none
  | some s =>
    let raw := s.trim
    if raw = "" then none
    else
      match qSearch raw.data with
      | some (y, q) => some (⟨y⟩ ++ "-Q" ++ ⟨[q]⟩)
      | none =>
        match altQSearch raw.data with
        | some (y, q) => some (⟨y⟩ ++ "-Q" ++ ⟨[q]⟩)
        | none =>
          if frequency = "quarterly" then
            match parse raw with
            | some dt => some (toString dt.year ++ "-Q" ++ toString ((dt.month - 1) / 3 + 1))
            | none =>
              match yearSearch raw.data with
              | some y => some (⟨y⟩ ++ "-Q1")
              | none => none
          else
            match parse raw with
            | none => none
            | some dt =>
              if frequency = "monthly" then
                some (padInt 4 dt.year ++ "-" ++ padInt 2 dt.month ++ "-01")
              else
                some (padInt 4 dt.year ++ "-" ++ padInt 2 dt.month ++ "-" ++ padInt 2 dt.day)

/-- A cell of a fetched CSV table; `none` models a `NaN` produced by
`pandas.read_csv` or by a failed coercion. -/
abbrev Cell := Option String

/-- A rectangular table as returned by `pd.read_csv`: column names plus
rows of cells. `pd.read_csv` mangles duplicate column names, so columns
can be assumed distinct; column access below uses the first occurrence,
which is also correct in that case. -/
structure DataFrame where
  columns : List String
  rows : List (List Cell)
deriving Repr

/-- `df.empty`: either axis has length zero. -/
def DataFrame.isEmptyDf (df : DataFrame) : Bool :=
  df.rows.isEmpty || df.columns.isEmpty

/-- `df[name]`: the cells of the named column, row by row. -/
def getCol (df : DataFrame) (name : String) : List Cell :=
  df.rows.map (fun r => r.getD (df.columns.indexOf name) none)

/-- Python truthiness of an optional string: `None` and `""` are falsy. -/
def truthyStr : Option String → Bool
  | none => false
  | some s => s ≠ ""

/-- Embedding of the static `SeriesIntent` dataclass. `filters` maps a
column-name hint to a regular expression (kept abstract). -/
structure SeriesIntent where
  id : String
  display_name : String
  frequency : String
  unit : String
  source : String
  candidate_queries : List String
  preferred_date_columns : List String
  preferred_value_columns : List String
  filters : Option (List (String × String))
deriving DecidableEq, Repr

/-- Embedding of `choose_column(columns, candidates)`: the `normalized`
dict iterates the distinct column names in first-occurrence order; the
first candidate hint that equals or is contained in a lowercased, stripped
column name wins, ties resolving to column order. -/
def choose_column (columns : List String) (candidates : List String) : Option String :=
  candidates.findSome? (fun candidate =>
    let cand := candidate.toLower.trim
    columns.eraseDups.find? (fun original =>
      original.toLower.trim == cand || isSubstr cand.data (original.toLower.trim).data))

/-- Embedding of `find_date_column(df, intent)`. The `if direct:` guard
uses Python truthiness, so an empty-string column name also falls through
to the generic heuristics. -/
def find_date_column (df : DataFrame) (intent : SeriesIntent) : Option String :=
  let direct := choose_column df.columns intent.preferred_date_columns
  if truthyStr direct then direct
  else choose_column df.columns ["date", "month", "quarter", "period", "year", "time"]

/-- Non-missing count of a column under the numeric coercion `toNum`
(`pd.to_numeric(df[col], errors="coerce").notna().sum()`). -/
def colCount (toNum : Cell → Option ℚ) (df : DataFrame) (col : String) : Nat :=
  (getCol df col).countP (fun c => (toNum c).isSome)

/-- Embedding of `find_value_column(df, intent)`. The fallback collects
`(col, count)` pairs with positive count in column order, stable-sorts
them by count descending (Python `list.sort(key=..., reverse=True)`;
`List.insertionSort` with this relation is stable) and returns the head. -/
def find_value_column (toNum : Cell → Option ℚ) (df : DataFrame)
    (intent : SeriesIntent) : Option String :=
  let preferred := choose_column df.columns intent.preferred_value_columns
  if truthyStr preferred then preferred
  else
    let numeric_cols := df.columns.filterMap (fun col =>
      let non_null := colCount toNum df col
      if 0 < non_null then some (col, non_null) else none)
    ((List.insertionSort (fun a b => b.2 ≤ a.2) numeric_cols).head?).map Prod.fst

/-- `astype(str)` on a cell: a `NaN` stringifies to `"nan"` in pandas. -/
def cellToStr : Cell → String
  | none => "nan"
  | some s => s

/-- Embedding of `apply_filters(df, filters)`. `rmatch pattern text` is
the external case-insensitive regex search used by
`Series.str.contains(pattern, case=False, regex=True)`. A filter whose
column hint resolves to no column (or to a falsy name) is skipped. -/
def apply_filters (rmatch : String → String → Bool) (df : DataFrame)
    (filters : Option (List (String × String))) : DataFrame :=
  match filters with
  | none => df
  | some fs =>
      fs.foldl (fun out fil =>
        match choose_column out.columns [fil.1] with
        | none => out
        | some candidate =>
            if candidate = "" then out
            else
              { out with rows := out.rows.filter (fun r =>
                  rmatch fil.2 (cellToStr (r.getD (out.columns.indexOf candidate) none))) }) df

/-- The value of the last pair carrying the given key, modelling both a
Python dict comprehension over points (last duplicate wins) and
`groupby(...).last()` group extraction. -/
def lastVal (pts : List (String × ℚ)) (p : String) : Option ℚ :=
  ((pts.filter (fun q => q.1 == p)).map Prod.snd).getLast?

/-- The rows of `parse_series` that survive period normalization, numeric
coercion and `dropna`: positionally zipped `(period, value)` pairs where
both are present. -/
def surviving_pairs (toNum : Cell → Option ℚ) (parse : String → Option CalDate)
    (rmatch : String → String → Bool) (df : DataFrame) (intent : SeriesIntent) :
    List (String × ℚ) :=
  let working := apply_filters rmatch df intent.filters
  match find_date_column working intent, find_value_column toNum working intent with
  | some date_col, some value_col =>
      if date_col = "" || value_col = "" then []
      else
        let values := (getCol working value_col).map toNum
        let periods := (getCol working date_col).map
          (fun c => normalize_period parse c intent.frequency)
        (periods.zip values).filterMap (fun pv =>
          match pv.1, pv.2 with
          | some p, some v => some (p, v)
          | _, _ => none)
  | _, _ => []

/-- `result.groupby("period", as_index=False).last().sort_values("period")`:
one row per distinct period, sorted ascending by the period string, whose
value is that of the last surviving row with that period. -/
def groupLastSortValues (pairs : List (String × ℚ)) : List (String × ℚ) :=
  (List.insertionSort (fun a b => a ≤ b) (pairs.map Prod.fst).dedup).map
    (fun k => (k, (lastVal pairs k).getD 0))

/-- Embedding of `parse_series(df, intent)`. -/
def parse_series (toNum : Cell → Option ℚ) (parse : String → Option CalDate)
    (rmatch : String → String → Bool) (df : DataFrame) (intent : SeriesIntent) :
    List (String × ℚ) :=
  if df.isEmptyDf then []
  else
    let working := apply_filters rmatch df intent.filters
    if working.isEmptyDf then []
    else
      let pairs := surviving_pairs toNum parse rmatch df intent
      if pairs.isEmpty then [] else groupLastSortValues pairs

/-- Embedding of the static `SERIES_INTENTS` configuration. -/
def SERIES_INTENTS : List SeriesIntent := [
  { id := "sora_level", display_name := "SORA Level", frequency := "daily", unit := "%",
    source := "data_gov_sg",
    candidate_queries := ["SORA", "Singapore Overnight Rate Average", "interbank rate singapore"],
    preferred_date_columns := ["date", "month", "period", "end_of_month"],
    preferred_value_columns := ["sora", "rate", "interest rate", "value"], filters := none },
  { id := "sgs_yield_2y", display_name := "SGS Yield 2Y", frequency := "daily", unit := "%",
    source := "data_gov_sg",
    candidate_queries := ["SGS yield 2-year", "Singapore government securities yield", "MAS SGS yield"],
    preferred_date_columns := ["date", "month", "period"],
    preferred_value_columns := ["2-year", "2 year", "2y", "yield_2y", "value"], filters := none },
  { id := "sgs_yield_10y", display_name := "SGS Yield 10Y", frequency := "daily", unit := "%",
    source := "data_gov_sg",
    candidate_queries := ["SGS yield 10-year", "Singapore government bond yield 10y", "MAS SGS yield"],
    preferred_date_columns := ["date", "month", "period"],
    preferred_value_columns := ["10-year", "10 year", "10y", "yield_10y", "value"], filters := none },
  { id := "sgs_yield_1y", display_name := "T-bill / SGS Yield 1Y", frequency := "daily", unit := "%",
    source := "data_gov_sg",
    candidate_queries := ["SGS yield 1-year", "T-bill yield singapore", "MAS treasury bill"],
    preferred_date_columns := ["date", "month", "period"],
    preferred_value_columns := ["1-year", "1 year", "1y", "yield_1y", "value"], filters := none },
  { id := "private_resi_price_index", display_name := "Private Residential Property Price Index",
    frequency := "quarterly", unit := "index", source := "data_gov_sg",
    candidate_queries := ["private residential property price index singapore", "URA private residential price index"],
    preferred_date_columns := ["quarter", "period", "date", "financial_quarter"],
    preferred_value_columns := ["index", "price index", "residential property price", "value"], filters := none },
  { id := "private_resi_rental_index", display_name := "Private Residential Rental Index",
    frequency := "quarterly", unit := "index", source := "data_gov_sg",
    candidate_queries := ["private residential rental index singapore", "URA rental index private"],
    preferred_date_columns := ["quarter", "period", "date"],
    preferred_value_columns := ["index", "rental index", "value"], filters := none },
  { id := "private_resi_transactions", display_name := "Private Residential Transactions",
    frequency := "quarterly", unit := "transactions", source := "data_gov_sg",
    candidate_queries := ["private residential transactions singapore", "URA private residential sales transactions"],
    preferred_date_columns := ["quarter", "period", "date"],
    preferred_value_columns := ["transactions", "no. of transactions", "volume", "value"], filters := none },
  { id := "dev_sales_uncompleted_sold",
    display_name := "Uncompleted Private Residential Units Sold by Developers",
    frequency := "quarterly", unit := "units", source := "data_gov_sg",
    candidate_queries := ["uncompleted private residential units sold developers", "developers sales uncompleted units singapore"],
    preferred_date_columns := ["quarter", "period", "date"],
    preferred_value_columns := ["uncompleted", "units sold", "sold", "value"], filters := none },
  { id := "dev_sales_completed_sold",
    display_name := "Completed Private Residential Units Sold by Developers",
    frequency := "quarterly", unit := "units", source := "data_gov_sg",
    candidate_queries := ["completed private residential units sold developers", "developers sales completed units singapore"],
    preferred_date_columns := ["quarter", "period", "date"],
    preferred_value_columns := ["completed", "units sold", "sold", "value"], filters := none },
  { id := "supply_starts", display_name := "Private Residential Units Started",
    frequency := "quarterly", unit := "units", source := "data_gov_sg",
    candidate_queries := ["private residential units started singapore", "housing starts private residential singapore"],
    preferred_date_columns := ["quarter", "period", "date", "year"],
    preferred_value_columns := ["starts", "units started", "value"], filters := none },
  { id := "supply_completions", display_name := "Private Residential Units Completed",
    frequency := "quarterly", unit := "units", source := "data_gov_sg",
    candidate_queries := ["private residential units completed singapore", "housing completions private residential singapore"],
    preferred_date_columns := ["quarter", "period", "date", "year"],
    preferred_value_columns := ["completions", "units completed", "value"], filters := none },
  { id := "supply_under_construction", display_name := "Private Residential Units Under Construction",
    frequency := "quarterly", unit := "units", source := "data_gov_sg",
    candidate_queries := ["private residential units under construction singapore", "private housing under construction singapore"],
    preferred_date_columns := ["quarter", "period", "date", "year"],
    preferred_value_columns := ["under construction", "units", "value"], filters := none },
  { id := "supply_available_vacant", display_name := "Available-Vacant Private Residential Units",
    frequency := "quarterly", unit := "units", source := "data_gov_sg",
    candidate_queries := ["available vacant private residential units singapore", "vacant private housing stock singapore"],
    preferred_date_columns := ["quarter", "period", "date", "year"],
    preferred_value_columns := ["available-vacant", "vacant", "available", "value"], filters := none },
  { id := "construction_material_prices", display_name := "Construction Material Market Prices",
    frequency := "monthly", unit := "index_or_price", source := "data_gov_sg",
    candidate_queries := ["Construction Material Market Prices", "BCA construction material prices singapore", "construction materials market prices monthly"],
    preferred_date_columns := ["month", "date", "period"],
    preferred_value_columns := ["price", "index", "value", "average"], filters := none }]

/-- A catalog resource: declared `format` and `url` keys (possibly absent). -/
structure Resource where
  format : Option String
  url : Option String
deriving DecidableEq, Repr

/-- A catalog dataset as consumed by the resolver: `title`,
`organization.title`, `metadata_modified` and the resource list. -/
structure Package where
  title : Option String
  org_title : Option String
  metadata_modified : Option String
  resources : List Resource
deriving Repr

/-- A resource is recognized as CSV when its declared format is `csv`
case-insensitively or its URL ends in `.csv`. -/
def isCSV (r : Resource) : Bool :=
  (r.format.getD "").toLower == "csv" || ((r.url.getD "").toLower).endsWith ".csv"

/-- Splits a character list into its maximal word-character runs, the
non-empty results of `re.split(r"\W+", q)` in order. The accumulator holds
the current run reversed. -/
def wordTokensGo (cur : List Char) : List Char → List (List Char)
  | [] => if cur.isEmpty then [] else [cur.reverse]
  | c :: rest =>
      if isWordChar c then wordTokensGo (c :: cur) rest
      else if cur.isEmpty then wordTokensGo [] rest
      else cur.reverse :: wordTokensGo [] rest

/-- Embedding of `MacroFetcher.score_package(pkg, query)`. All increments
are integral, so the Python float score is modelled as an `Int`. -/
def score_package (pkg : Package) (query : String) : Int :=
  let title := (pkg.title.getD "").toLower
  let org := (pkg.org_title.getD "").toLower
  let q := query.toLower
  let s1 : Int := if q = title then 30 else 0
  let s2 : Int := if isSubstr q.data title.data then 20 else 0
  let tokens := (wordTokensGo [] q.data).filter (fun t => 2 < t.length)
  let s3 : Int := 2 * ((tokens.countP (fun t => isSubstr t title.data) : Nat) : Int)
  let s4 : Int :=
    if ["monetary authority", "mas", "urban redevelopment", "ura", "singstat", "bca"].any
        (fun a => isSubstr a.data org.data) then 8 else 0
  let s5 : Int := if truthyStr pkg.metadata_modified then 5 else 0
  s1 + s2 + s3 + s4 + s5

/-- Reachability status of one external source (`{"ok": ..., "error": ...}`). -/
structure SrcStat where
  ok : Bool
  error : String
deriving DecidableEq, Repr

/-- The fetcher's `source_status` dict with its two fixed keys. -/
structure SourceStatus where
  data_gov_sg : SrcStat
  singstat : SrcStat
deriving DecidableEq, Repr

/-- The fetcher's initial source status: both sources ok. -/
def initSourceStatus : SourceStatus := ⟨⟨true, ""⟩, ⟨true, ""⟩⟩

/-- Embedding of `truncate_error(text, limit)`: texts longer than the
limit are cut to their first `limit` characters and suffixed with an
ellipsis. -/
def truncate_error (text : String) (limit : Nat) : String :=
  if text.length ≤ limit then text else ⟨text.data.take limit⟩ ++ "..."

/-- The inner package loop of `resolve_dataset`: scan the search results
of one query, skipping packages without a CSV resource and replacing the
running best on a strictly larger score, pairing it with the first CSV
resource. -/
def scan_packages (query : String) :
    List Package → Option (Package × Resource) → Int → Option (Package × Resource) × Int
  | [], best, best_score => (best, best_score)
  | pkg :: rest, best, best_score =>
      match pkg.resources.filter isCSV with
      | [] => scan_packages query rest best best_score
      | r :: _ =>
          let score := score_package pkg query
          if best_score < score then scan_packages query rest (some (pkg, r)) score
          else scan_packages query rest best best_score

/-- The query loop of `resolve_dataset`: a failed `package_search` stores
a truncated error on the `data_gov_sg` reachability status and resolution
continues with the next query. -/
def resolve_go (search : String → Except String (List Package)) :
    List String → Option (Package × Resource) → Int → SourceStatus →
    Option (Package × Resource) × SourceStatus
  | [], best, _, st => (best, st)
  | query :: qs, best, best_score, st =>
      match search query with
      | .error exc =>
          resolve_go search qs best best_score
            { st with data_gov_sg := ⟨false, truncate_error exc 220⟩ }
      | .ok packages =>
          let r := scan_packages query packages best best_score
          resolve_go search qs r.1 r.2 st

/-- Embedding of `MacroFetcher.resolve_dataset(intent)`. The catalog
search client is the parameter `search`; the mutable
`self.source_status` is threaded explicitly. -/
def resolve_dataset (search : String → Except String (List Package))
    (st : SourceStatus) (intent : SeriesIntent) :
    (Option Package × Option Resource) × SourceStatus :=
  let r := resolve_go search intent.candidate_queries none (-1) st
  match r.1 with
  | some pr => ((some pr.1, some pr.2), r.2)
  | none => ((none, none), r.2)

/-- Provenance of a resolved series. -/
structure Source where
  name : String
  dataset_title : String
  resource_url : String
deriving DecidableEq, Repr

/-- A resolved series entry of the macro payload. The Python dicts built
by `run_fetch` carry a `note` key only in the empty/partial cases, which
is modelled by `Option`. -/
structure ResolvedSeries where
  display_name : String
  frequency : String
  unit : String
  source : Source
  last_observation_period : Option String
  data : List (String × ℚ)
  note : Option String
deriving DecidableEq, Repr

/-- A per-series entry of the status payload. -/
structure SeriesStatus where
  ok : Bool
  last_period : Option String
  error : String
deriving DecidableEq, Repr

/-- Embedding of `build_empty_series(intent, note)`. -/
def build_empty_series (intent : SeriesIntent) (note : String) : ResolvedSeries :=
  { display_name := intent.display_name, frequency := intent.frequency,
    unit := intent.unit, source := ⟨"unavailable", "", ""⟩,
    last_observation_period := none, data := [], note := some note }

/-- The `data` array of a series map entry,
`series_map.get(key, {}).get("data", [])`. -/
def dataOf (series_map : List (String × ResolvedSeries)) (key : String) : List (String × ℚ) :=
  ((series_map.lookup key).map ResolvedSeries.data).getD []

/-- Embedding of `derive_curve_slope(series_map)`. The dict
comprehensions over data points keep the last value of a duplicated
period (`lastVal`); `sorted(set(...) & set(...))` is the sorted list of
distinct shared period keys. -/
def derive_curve_slope (series_map : List (String × ResolvedSeries)) :
    Option ResolvedSeries :=
  let ten := dataOf series_map "sgs_yield_10y"
  let two := dataOf series_map "sgs_yield_2y"
  let one := dataOf series_map "sgs_yield_1y"
  let base := if two.isEmpty then one else two
  let base_name := if !two.isEmpty then "2Y" else if !one.isEmpty then "1Y" else "None"
  if ten.isEmpty || base.isEmpty then none
  else
    let shared := List.insertionSort (fun a b => a ≤ b)
      (((ten.map Prod.fst).dedup).filter (fun p => decide (p ∈ base.map Prod.fst)))
    let data := shared.map (fun p => (p, (lastVal ten p).getD 0 - (lastVal base p).getD 0))
    if data.isEmpty then none
    else some
      { display_name := "Yield Curve Slope (10Y-" ++ base_name ++ ")",
        frequency := "daily", unit := "percentage_points",
        source := ⟨"derived", "Derived from fetched yields", ""⟩,
        last_observation_period := some (data.getLastD ("", 0)).1,
        data := data, note := none }

/-- Embedding of `derive_moving_average(series_obj, window)`. Python's
`sum(...)` over the value slice is the list sum; `range(window-1, len)` is
`List.range' (window-1) (len-(window-1))`. -/
def derive_moving_average (series_obj : ResolvedSeries) (window : Nat) :
    Option ResolvedSeries :=
  let src := series_obj.data
  if src.length < window then none
  else
    let values := src.map Prod.snd
    let periods := src.map Prod.fst
    let ma_data := (List.range' (window - 1) (src.length - (window - 1))).map
      (fun i => (periods.getD i "",
                 ((values.drop (i + 1 - window)).take window).sum / (window : ℚ)))
    some
      { display_name := series_obj.display_name ++ " (" ++ toString window ++ "-period MA)",
        frequency := series_obj.frequency, unit := series_obj.unit,
        source := ⟨"derived", "Moving average", ""⟩,
        last_observation_period := some (ma_data.getLastD ("", 0)).1,
        data := ma_data, note := none }

/-- The external collaborators and ambient inputs of one `run_fetch` run:
catalog search, CSV fetch (both may fail with an exception message),
numeric coercion, generic date parsing, the filter regex matcher, and the
current timestamp string. -/
structure FetchEnv where
  search : String → Except String (List Package)
  fetchCSV : String → Except String DataFrame
  toNum : Cell → Option ℚ
  parseDate : String → Option CalDate
  rmatch : String → String → Bool
  now : String

/-- Python dict assignment on an insertion-ordered string-keyed dict:
replace in place when the key exists, else append. -/
def dictInsert {α : Type} (m : List (String × α)) (k : String) (v : α) :
    List (String × α) :=
  if m.any (fun p => p.1 == k) then
    m.map (fun p => cond (p.1 == k) (k, v) p)
  else m ++ [(k, v)]

/-- The body of one iteration of the intent loop of `run_fetch`, given
the resolver's result. The whole body runs under `try`, and the only
statement inside it that can raise is the CSV fetch (`resolve_dataset`
catches search failures itself), so the `except` branch is the
fetch-failure branch. Returns the payload entry and the status entry. -/
def process_intent_out (env : FetchEnv) (best : Option Package × Option Resource)
    (intent : SeriesIntent) : ResolvedSeries × SeriesStatus :=
  match best with
  | (some package, some resource) =>
      let resource_url := resource.url.getD ""
      match env.fetchCSV resource_url with
      | .error exc =>
          (build_empty_series intent "Fetch failed",
           ⟨false, none, truncate_error exc 220⟩)
      | .ok df =>
          let points := parse_series env.toNum env.parseDate env.rmatch df intent
          if points.isEmpty then
            ({ build_empty_series intent "Resolved dataset but no parseable data points" with
                source := ⟨"data.gov.sg", package.title.getD "", resource_url⟩ },
             ⟨false, none, "No parseable data points"⟩)
          else
            ({ display_name := intent.display_name, frequency := intent.frequency,
               unit := intent.unit,
               source := ⟨"data.gov.sg", package.title.getD "", resource_url⟩,
               last_observation_period := some (points.getLastD ("", 0)).1,
               data := points, note := none },
             ⟨true, some (points.getLastD ("", 0)).1, ""⟩)
  | _ =>
      (build_empty_series intent "No matching CSV dataset resource found",
       ⟨false, none, "No dataset match"⟩)

/-- One iteration of the intent loop of `run_fetch`: resolve, then build
the payload and status entries, threading the source status. -/
def process_intent (env : FetchEnv) (st : SourceStatus) (intent : SeriesIntent) :
    (ResolvedSeries × SeriesStatus) × SourceStatus :=
  let res := resolve_dataset env.search st intent
  (process_intent_out env res.1 intent, res.2)

/-- The intent loop of `run_fetch` over an explicit intent list, threading
the payload dict, the status dict and the source status. -/
def run_intents_from (env : FetchEnv) (l : List SeriesIntent)
    (acc : (List (String × ResolvedSeries) × List (String × SeriesStatus)) × SourceStatus) :
    (List (String × ResolvedSeries) × List (String × SeriesStatus)) × SourceStatus :=
  l.foldl (fun acc intent =>
    let r := process_intent env acc.2 intent
    ((dictInsert acc.1.1 intent.id r.1.1, dictInsert acc.1.2 intent.id r.1.2), r.2)) acc

/-- `derive_moving_average(series_payload.get(raw_id, {}), 3)`: a missing
raw id behaves like an empty dict, whose empty `data` is shorter than the
window, so the derivation produces nothing. -/
def derive_moving_average_at (m : List (String × ResolvedSeries)) (raw_id : String)
    (window : Nat) : Option ResolvedSeries :=
  match m.lookup raw_id with
  | none => none
  | some s => derive_moving_average s window

/-- Merging one optional derived series (with its ok status) into the two
dicts under the derived id; a `None` derivation inserts nothing. -/
def insert_derived (acc : List (String × ResolvedSeries) × List (String × SeriesStatus))
    (derived_id : String) (o : Option ResolvedSeries) :
    List (String × ResolvedSeries) × List (String × SeriesStatus) :=
  match o with
  | some derived =>
      (dictInsert acc.1 derived_id derived,
       dictInsert acc.2 derived_id ⟨true, derived.last_observation_period, ""⟩)
  | none => acc

/-- State of the two dicts after merging the curve slope. -/
def derivedStep1 (pay : List (String × ResolvedSeries))
    (stat : List (String × SeriesStatus)) :
    List (String × ResolvedSeries) × List (String × SeriesStatus) :=
  insert_derived (pay, stat) "yield_curve_slope" (derive_curve_slope pay)

/-- State after additionally merging the transactions moving average. -/
def derivedStep2 (pay : List (String × ResolvedSeries))
    (stat : List (String × SeriesStatus)) :
    List (String × ResolvedSeries) × List (String × SeriesStatus) :=
  insert_derived (derivedStep1 pay stat) "private_resi_transactions_ma3"
    (derive_moving_average_at (derivedStep1 pay stat).1 "private_resi_transactions" 3)

/-- The derived-series block of `run_fetch`: the curve slope, then the
moving-average loop over its two statically configured
`(raw_id, derived_id)` pairs, unrolled. -/
def apply_derived (pay : List (String × ResolvedSeries))
    (stat : List (String × SeriesStatus)) :
    List (String × ResolvedSeries) × List (String × SeriesStatus) :=
  insert_derived (derivedStep2 pay stat) "dev_sales_uncompleted_sold_ma3"
    (derive_moving_average_at (derivedStep2 pay stat).1 "dev_sales_uncompleted_sold" 3)

/-- The `meta` block of the macro payload. -/
structure Meta where
  generated_utc : String
  sources_data_gov_sg : String
  sources_singstat : String
  notes : List String
deriving DecidableEq, Repr

/-- The macro (data) payload. -/
structure MacroPayload where
  meta : Meta
  series : List (String × ResolvedSeries)
deriving Repr

/-- The status (health) payload. -/
structure StatusPayload where
  last_run_utc : String
  ok : Bool
  series_status : List (String × SeriesStatus)
  source_status : SourceStatus
  errors : List String
deriving Repr

/-- The fetcher's source status at the end of the intent loop. -/
def run_source_status (env : FetchEnv) : SourceStatus :=
  (run_intents_from env SERIES_INTENTS (([], []), initSourceStatus)).2

/-- The final series dict of the macro payload (intents then derived). -/
def run_series (env : FetchEnv) : List (String × ResolvedSeries) :=
  (apply_derived (run_intents_from env SERIES_INTENTS (([], []), initSourceStatus)).1.1
    (run_intents_from env SERIES_INTENTS (([], []), initSourceStatus)).1.2).1

/-- The final per-series status dict (intents then derived). -/
def run_series_status (env : FetchEnv) : List (String × SeriesStatus) :=
  (apply_derived (run_intents_from env SERIES_INTENTS (([], []), initSourceStatus)).1.1
    (run_intents_from env SERIES_INTENTS (([], []), initSourceStatus)).1.2).2

/-- The overall ok flag: every source reachability flag and every
per-series status must be ok. -/
def run_ok (env : FetchEnv) : Bool :=
  ((run_source_status env).data_gov_sg.ok && (run_source_status env).singstat.ok)
    && (run_series_status env).all (fun kv => kv.2.ok)

/-- The collected error list: the first 20 non-empty per-series error
strings in dict order. -/
def run_errors (env : FetchEnv) : List String :=
  (((run_series_status env).map (fun kv => kv.2.error)).filter (fun e => !(e == ""))).take 20

/-- Embedding of `run_fetch()`. -/
def run_fetch (env : FetchEnv) : MacroPayload × StatusPayload :=
  ({ meta :=
      { generated_utc := env.now,
        sources_data_gov_sg := "https://data.gov.sg/api/action/package_search",
        sources_singstat := "https://tablebuilder.singstat.gov.sg/api/table",
        notes := ["Series are resolved dynamically from data.gov.sg using keyword queries.",
                  "Missing datasets are tolerated; series remain present with empty data arrays."] },
     series := run_series env },
   { last_run_utc := env.now,
     ok := run_ok env,
     series_status := run_series_status env,
     source_status := run_source_status env,
     errors := run_errors env })

/-! ### Claim-side (specification-worded) definitions -/

/-- The CSV-bearing candidates among one query's results: every returned
package having at least one CSV-recognized resource, paired with its
first CSV resource and its score against that query. Datasets with no
CSV resource are skipped. -/
def pkgCands (query : String) (packages : List Package) :
    List (Package × Resource × Int) :=
  packages.filterMap (fun pkg =>
    match pkg.resources.filter isCSV with
    | [] => none
    | r :: _ => some (pkg, r, score_package pkg query))

/-- The CSV-bearing candidates an intent's resolution can see, in query
order then catalog result order; failed searches contribute nothing. -/
def csvCandidates (search : String → Except String (List Package)) :
    List String → List (Package × Resource × Int)
  | [] => []
  | query :: qs =>
      (match search query with
       | .error _ => []
       | .ok packages => pkgCands query packages) ++ csvCandidates search qs

/-- The maximal candidate score, with the resolver's initial best score
`-1` as the value for an empty candidate list. -/
def bestScore : List (Package × Resource × Int) → Int
  | [] => -1
  | c :: rest => max c.2.2 (bestScore rest)

/-- The first-encountered candidate attaining the maximal score.
Because the resolver replaces its best only on a strictly greater score,
its final best is the first candidate attaining the global maximum,
equivalently the last candidate whose score strictly exceeds every
earlier score. -/
def firstBest : List (Package × Resource × Int) → Option (Package × Resource)
  | [] => none
  | c :: rest => if bestScore rest ≤ c.2.2 then some (c.1, c.2.1) else firstBest rest

/-- The first-encountered pair attaining the maximal count (ties broken
in favor of the earlier pair), used to phrase the value-column fallback. -/
def firstMaxCount : List (String × Nat) → Option (String × Nat)
  | [] => none
  | a :: rest =>
      match firstMaxCount rest with
      | none => some a
      | some m => if m.2 ≤ a.2 then some a else some m

/-- Specification wording of the value-column statistical fallback: the
column with the greatest count of numeric-coercible cells, ties broken in
favor of the first-encountered column, and absent exactly when every
column coerces to all-missing. -/
def bestNumericColumn (toNum : Cell → Option ℚ) (df : DataFrame) : Option String :=
  (firstMaxCount (df.columns.map (fun col => (col, colCount toNum df col)))).bind
    (fun m => if m.2 = 0 then none else some m.1)

/-! ### Sample concrete collaborators for witnesses and examples -/

/-- A generic date parser that never parses, a sample `pd.to_datetime`
behavior. -/
def parseNone : String → Option CalDate := fun _ => none

/-- A regex matcher that never matches, a sample row-filter collaborator
(no configured intent has filters, so it is never consulted). -/
def rmatchNone : String → String → Bool := fun _ _ => false

/-- Digit-run value, for the sample numeric coercion. -/
def digitsVal (cs : List Char) : Option Nat :=
  if cs.isEmpty then none
  else if cs.all isDigitChar then
    some (cs.foldl (fun n c => 10 * n + (c.toNat - 48)) 0)
  else none

/-- A sample numeric coercion (`pd.to_numeric`) for concrete runs:
decimal literals such as `2` or `3.5`, anything else missing. -/
def toNumEx : Cell → Option ℚ
  | none => none
  | some s =>
      match s.data.splitOn '.' with
      | [w] => (digitsVal w).map (fun n => (n : ℚ))
      | [w, f] =>
          match digitsVal w, digitsVal f with
          | some n, some m => some ((n : ℚ) + (m : ℚ) / ((10 : ℚ) ^ f.length))
          | _, _ => none
      | _ => none

/-- The configured intent at a position (a harmless placeholder out of
range). -/
def intentAt (n : Nat) : SeriesIntent :=
  SERIES_INTENTS.getD n ⟨"", "", "", "", "", [], [], [], none⟩

/-- A two-row table whose both rows normalize to the quarter `2025-Q1`,
with values `1.0` then `2.0`. -/
def dupDf : DataFrame :=
  ⟨["quarter", "value"], [[some "2025-Q1", some "1.0"], [some "2025Q1", some "2.0"]]⟩

/-- A resolved series with the given points, for derivation examples. -/
def mkSeries (d : List (String × ℚ)) : ResolvedSeries :=
  { display_name := "S", frequency := "daily", unit := "%", source := ⟨"x", "", ""⟩,
    last_observation_period := none, data := d, note := none }

/-- An environment in which every catalog search throws. -/
def envAllFail : FetchEnv :=
  { search := fun _ => .error "catalog down",
    fetchCSV := fun _ => .error "unreachable",
    toNum := toNumEx, parseDate := parseNone, rmatch := rmatchNone, now := "T" }

/-- A 221-character exception message. -/
def longMsg : String := ⟨List.replicate 221 'a'⟩

/-- A catalog package with one CSV resource. -/
def pkgCsv : Package :=
  { title := some "SORA dataset", org_title := some "Monetary Authority of Singapore",
    metadata_modified := some "2024-01-01", resources := [⟨some "CSV", some "http://x/data.csv"⟩] }

/-- An environment in which the first intent resolves `pkgCsv` and every
CSV fetch throws with a 221-character message. -/
def envLongError : FetchEnv :=
  { search := fun q => if q = "SORA" then .ok [pkgCsv] else .ok [],
    fetchCSV := fun _ => .error longMsg,
    toNum := toNumEx, parseDate := parseNone, rmatch := rmatchNone, now := "T" }

/-! ### Helper lemmas -/

theorem truncate_error_length (text : String) : (truncate_error text 220).length ≤ 223 := by
  unfold truncate_error
  split
  · omega
  · have h1 : ((⟨text.data.take 220⟩ : String) ++ "...").length
        = (text.data.take 220).length + 3 := by
      show ((text.data.take 220) ++ "...".data).length = _
      simp
    have h2 : (text.data.take 220).length ≤ 220 := by
      simp [List.length_take]
    omega

theorem truncate_error_short (text : String) (h : text.length ≤ 220) :
    truncate_error text 220 = text := by
  unfold truncate_error
  simp [h]

theorem lookup_map_replace_self {α : Type} (m : List (String × α)) (k : String) (v : α)
    (hany : m.any (fun p => p.1 == k) = true) :
    (m.map (fun p => cond (p.1 == k) (k, v) p)).lookup k = some v := by
  induction m with
  | nil => simp at hany
  | cons a t ih =>
      cases hak : (a.1 == k) with
      | true => simp [List.lookup, hak]
      | false =>
          have h' : t.any (fun p => p.1 == k) = true := by
            simpa [List.any_cons, hak] using hany
          have hk : (k == a.1) = false := by
            have : a.1 ≠ k := by simpa using hak
            simp [Ne.symm this]
          simp [List.lookup, hak, hk, ih h']

theorem lookup_append_single_self {α : Type} (m : List (String × α)) (k : String) (v : α)
    (hany : m.any (fun p => p.1 == k) = false) :
    (m ++ [(k, v)]).lookup k = some v := by
  induction m with
  | nil => simp [List.lookup]
  | cons a t ih =>
      have hak : (a.1 == k) = false := by
        by_contra hc
        simp only [Bool.not_eq_false] at hc
        simp [List.any_cons, hc] at hany
      have h' : t.any (fun p => p.1 == k) = false := by
        simpa [List.any_cons, hak] using hany
      have hk : (k == a.1) = false := by
        have : a.1 ≠ k := by simpa using hak
        simp [Ne.symm this]
      simpa [List.cons_append, List.lookup, hk] using ih h'

theorem dictInsert_lookup_self {α : Type} (m : List (String × α)) (k : String) (v : α) :
    (dictInsert m k v).lookup k = some v := by
  unfold dictInsert
  cases hany : m.any (fun p => p.1 == k) with
  | true => simpa [hany] using lookup_map_replace_self m k v hany
  | false => simpa [hany] using lookup_append_single_self m k v hany

theorem lookup_map_replace_ne {α : Type} (m : List (String × α)) (k k' : String) (v : α)
    (h : k' ≠ k) :
    (m.map (fun p => cond (p.1 == k) (k, v) p)).lookup k' = m.lookup k' := by
  induction m with
  | nil => simp
  | cons a t ih =>
      cases hak : (a.1 == k) with
      | true =>
          have hke : a.1 = k := by simpa using hak
          have hk1 : (k' == k) = false := by simp [h]
          have hk2 : (k' == a.1) = false := by simp [hke, h]
          simp [List.lookup, hak, hk1, hk2, ih]
      | false =>
          cases hk : (k' == a.1) with
          | true => simp [List.lookup, hak, hk]
          | false => simp [List.lookup, hak, hk, ih]

theorem lookup_append_single_ne {α : Type} (m : List (String × α)) (k k' : String) (v : α)
    (h : k' ≠ k) :
    (m ++ [(k, v)]).lookup k' = m.lookup k' := by
  induction m with
  | nil =>
      have hk1 : (k' == k) = false := by simp [h]
      simp [List.lookup, hk1]
  | cons a t ih =>
      cases hk : (k' == a.1) with
      | true => simp [List.cons_append, List.lookup, hk]
      | false => simp [List.cons_append, List.lookup, hk, ih]

theorem dictInsert_lookup_ne {α : Type} (m : List (String × α)) (k k' : String) (v : α)
    (h : k' ≠ k) :
    (dictInsert m k v).lookup k' = m.lookup k' := by
  unfold dictInsert
  split
  · exact lookup_map_replace_ne m k k' v h
  · exact lookup_append_single_ne m k k' v h

theorem resolve_go_fst (search : String → Except String (List Package)) (qs : List String)
    (best : Option (Package × Resource)) (score : Int) (st st' : SourceStatus) :
    (resolve_go search qs best score st).1 = (resolve_go search qs best score st').1 := by
  induction qs generalizing best score st st' with
  | nil => rfl
  | cons q t ih =>
      unfold resolve_go
      cases search q with
      | error e => exact ih _ _ _ _
      | ok packages => exact ih _ _ _ _

theorem resolve_dataset_fst (search : String → Except String (List Package))
    (st st' : SourceStatus) (intent : SeriesIntent) :
    (resolve_dataset search st intent).1 = (resolve_dataset search st' intent).1 := by
  have h := resolve_go_fst search intent.candidate_queries none (-1) st st'
  unfold resolve_dataset
  cases hr : (resolve_go search intent.candidate_queries none (-1) st).1 with
  | none => rw [hr] at h; simp [hr, ← h]
  | some pr => rw [hr] at h; simp [hr, ← h]

theorem process_intent_fst (env : FetchEnv) (st st' : SourceStatus) (intent : SeriesIntent) :
    (process_intent env st intent).1 = (process_intent env st' intent).1 := by
  show process_intent_out env (resolve_dataset env.search st intent).1 intent
      = process_intent_out env (resolve_dataset env.search st' intent).1 intent
  rw [resolve_dataset_fst env.search st st' intent]

theorem run_intents_from_cons (env : FetchEnv) (i : SeriesIntent) (t : List SeriesIntent)
    (acc : (List (String × ResolvedSeries) × List (String × SeriesStatus)) × SourceStatus) :
    run_intents_from env (i :: t) acc =
      run_intents_from env t
        ((dictInsert acc.1.1 i.id (process_intent env acc.2 i).1.1,
          dictInsert acc.1.2 i.id (process_intent env acc.2 i).1.2),
         (process_intent env acc.2 i).2) := by
  rfl

theorem run_intents_from_preserve (env : FetchEnv) (l : List SeriesIntent)
    (acc : (List (String × ResolvedSeries) × List (String × SeriesStatus)) × SourceStatus)
    (k : String) (hk : ∀ i ∈ l, i.id ≠ k) :
    (run_intents_from env l acc).1.1.lookup k = acc.1.1.lookup k
    ∧ (run_intents_from env l acc).1.2.lookup k = acc.1.2.lookup k := by
  induction l generalizing acc with
  | nil => exact ⟨rfl, rfl⟩
  | cons i t ih =>
      rw [run_intents_from_cons]
      have hki : i.id ≠ k := hk i (List.mem_cons_self i t)
      have hkt : ∀ j ∈ t, j.id ≠ k := fun j hj => hk j (List.mem_cons_of_mem i hj)
      have h := ih ((dictInsert acc.1.1 i.id (process_intent env acc.2 i).1.1,
          dictInsert acc.1.2 i.id (process_intent env acc.2 i).1.2),
          (process_intent env acc.2 i).2) hkt
      refine ⟨?_, ?_⟩
      · rw [h.1, dictInsert_lookup_ne _ _ _ _ (Ne.symm hki)]
      · rw [h.2, dictInsert_lookup_ne _ _ _ _ (Ne.symm hki)]

theorem run_intents_from_lookup (env : FetchEnv) (l : List SeriesIntent)
    (acc : (List (String × ResolvedSeries) × List (String × SeriesStatus)) × SourceStatus)
    (i : SeriesIntent) (hi : i ∈ l) (hnd : (l.map SeriesIntent.id).Nodup) :
    (run_intents_from env l acc).1.1.lookup i.id
      = some (process_intent env initSourceStatus i).1.1
    ∧ (run_intents_from env l acc).1.2.lookup i.id
      = some (process_intent env initSourceStatus i).1.2 := by
  induction l generalizing acc with
  | nil => cases hi
  | cons j t ih =>
      rw [run_intents_from_cons]
      have hnd' : j.id ∉ t.map SeriesIntent.id ∧ (t.map SeriesIntent.id).Nodup := by
        rw [List.map_cons, List.nodup_cons] at hnd
        exact hnd
      rcases List.mem_cons.mp hi with hij | hit
      · subst hij
        have hkt : ∀ j' ∈ t, j'.id ≠ i.id := by
          intro j' hj' hje
          exact hnd'.1 (hje ▸ List.mem_map_of_mem SeriesIntent.id hj')
        have hpres := run_intents_from_preserve env t
          ((dictInsert acc.1.1 i.id (process_intent env acc.2 i).1.1,
            dictInsert acc.1.2 i.id (process_intent env acc.2 i).1.2),
           (process_intent env acc.2 i).2) i.id hkt
        have hfix := process_intent_fst env acc.2 initSourceStatus i
        constructor
        · rw [hpres.1]
          show (dictInsert acc.1.1 i.id (process_intent env acc.2 i).1.1).lookup i.id = _
          rw [dictInsert_lookup_self, hfix]
        · rw [hpres.2]
          show (dictInsert acc.1.2 i.id (process_intent env acc.2 i).1.2).lookup i.id = _
          rw [dictInsert_lookup_self, hfix]
      · exact ih _ hit hnd'.2

theorem insert_derived_lookup_ne
    (acc : List (String × ResolvedSeries) × List (String × SeriesStatus))
    (did k : String) (o : Option ResolvedSeries) (h : k ≠ did) :
    (insert_derived acc did o).1.lookup k = acc.1.lookup k
    ∧ (insert_derived acc did o).2.lookup k = acc.2.lookup k := by
  cases o with
  | none => exact ⟨rfl, rfl⟩
  | some d =>
      exact ⟨dictInsert_lookup_ne _ _ _ _ h, dictInsert_lookup_ne _ _ _ _ h⟩

theorem insert_derived_lookup_self_pay
    (acc : List (String × ResolvedSeries) × List (String × SeriesStatus))
    (did : String) (o : Option ResolvedSeries) (hbase : acc.1.lookup did = none) :
    (insert_derived acc did o).1.lookup did = o := by
  cases o with
  | none => exact hbase
  | some d => exact dictInsert_lookup_self _ _ _

theorem insert_derived_lookup_self_stat
    (acc : List (String × ResolvedSeries) × List (String × SeriesStatus))
    (did : String) (o : Option ResolvedSeries) (hbase : acc.2.lookup did = none) :
    (insert_derived acc did o).2.lookup did
      = o.map (fun d => (⟨true, d.last_observation_period, ""⟩ : SeriesStatus)) := by
  cases o with
  | none => exact hbase
  | some d => exact dictInsert_lookup_self _ _ _

theorem derive_moving_average_at_congr (m m' : List (String × ResolvedSeries))
    (raw : String) (w : Nat) (h : m.lookup raw = m'.lookup raw) :
    derive_moving_average_at m raw w = derive_moving_average_at m' raw w := by
  unfold derive_moving_average_at
  rw [h]

/-- The three derived series ids. -/
def derivedIds : List String :=
  ["yield_curve_slope", "private_resi_transactions_ma3", "dev_sales_uncompleted_sold_ma3"]

theorem intent_ids_nodup : (SERIES_INTENTS.map SeriesIntent.id).Nodup := by decide

theorem intent_ids_not_derived : ∀ i ∈ SERIES_INTENTS, ∀ d ∈ derivedIds, i.id ≠ d := by decide

theorem run_payload_no_key (env : FetchEnv) (k : String)
    (hk : ∀ i ∈ SERIES_INTENTS, i.id ≠ k) :
    (run_intents_from env SERIES_INTENTS (([], []), initSourceStatus)).1.1.lookup k = none
    ∧ (run_intents_from env SERIES_INTENTS (([], []), initSourceStatus)).1.2.lookup k = none := by
  have h := run_intents_from_preserve env SERIES_INTENTS (([], []), initSourceStatus) k hk
  exact ⟨by rw [h.1]; rfl, by rw [h.2]; rfl⟩

theorem apply_derived_lookup_intent (pay : List (String × ResolvedSeries))
    (stat : List (String × SeriesStatus)) (k : String)
    (h : ∀ d ∈ derivedIds, k ≠ d) :
    (apply_derived pay stat).1.lookup k = pay.lookup k
    ∧ (apply_derived pay stat).2.lookup k = stat.lookup k := by
  have h1 : k ≠ "yield_curve_slope" := h _ (by simp [derivedIds])
  have h2 : k ≠ "private_resi_transactions_ma3" := h _ (by simp [derivedIds])
  have h3 : k ≠ "dev_sales_uncompleted_sold_ma3" := h _ (by simp [derivedIds])
  have e3 := insert_derived_lookup_ne (derivedStep2 pay stat) "dev_sales_uncompleted_sold_ma3" k
    (derive_moving_average_at (derivedStep2 pay stat).1 "dev_sales_uncompleted_sold" 3) h3
  have e2 := insert_derived_lookup_ne (derivedStep1 pay stat) "private_resi_transactions_ma3" k
    (derive_moving_average_at (derivedStep1 pay stat).1 "private_resi_transactions" 3) h2
  have e1 := insert_derived_lookup_ne (pay, stat) "yield_curve_slope" k
    (derive_curve_slope pay) h1
  unfold apply_derived derivedStep2 derivedStep1 at *
  exact ⟨by rw [e3.1, e2.1, e1.1], by rw [e3.2, e2.2, e1.2]⟩

theorem run_fetch_series (env : FetchEnv) :
    (run_fetch env).1.series = run_series env := by
  unfold run_fetch
  with_reducible rfl

theorem run_fetch_series_status (env : FetchEnv) :
    (run_fetch env).2.series_status = run_series_status env := by
  unfold run_fetch
  with_reducible rfl

theorem run_fetch_source_status (env : FetchEnv) :
    (run_fetch env).2.source_status = run_source_status env := by
  unfold run_fetch
  with_reducible rfl

theorem run_fetch_ok (env : FetchEnv) :
    (run_fetch env).2.ok = run_ok env := by
  unfold run_fetch
  with_reducible rfl

theorem run_fetch_errors (env : FetchEnv) :
    (run_fetch env).2.errors = run_errors env := by
  unfold run_fetch
  with_reducible rfl

/-- C1: every run's macro payload has an entry for every configured
intent id, the status payload has a per-series status for every
configured intent id (both equal to the outcome of processing that intent
alone, so a failure in one intent never removes or alters another
intent's entries), the overall ok flag is false whenever a source or a
series failed, and the errors list holds at most 20 non-empty strings.
The environment quantifies over all collaborator behaviors, including
ones where every search and every fetch throws. -/
theorem claim_C1_run_completeness (env : FetchEnv) :
    (∀ i ∈ SERIES_INTENTS,
        (run_fetch env).1.series.lookup i.id
          = some (process_intent env initSourceStatus i).1.1
        ∧ (run_fetch env).2.series_status.lookup i.id
          = some (process_intent env initSourceStatus i).1.2)
    ∧ (((run_fetch env).2.source_status.data_gov_sg.ok = false
        ∨ (run_fetch env).2.source_status.singstat.ok = false
        ∨ ∃ kv ∈ (run_fetch env).2.series_status, kv.2.ok = false)
       → (run_fetch env).2.ok = false)
    ∧ (run_fetch env).2.errors.length ≤ 20
    ∧ (∀ e ∈ (run_fetch env).2.errors, e ≠ "") := by
  refine ⟨?_, ?_, ?_, ?_⟩
  · intro i hi
    have hder : ∀ d ∈ derivedIds, i.id ≠ d := intent_ids_not_derived i hi
    have happ := apply_derived_lookup_intent
      (run_intents_from env SERIES_INTENTS (([], []), initSourceStatus)).1.1
      (run_intents_from env SERIES_INTENTS (([], []), initSourceStatus)).1.2 i.id hder
    have hrun := run_intents_from_lookup env SERIES_INTENTS (([], []), initSourceStatus)
      i hi intent_ids_nodup
    rw [run_fetch_series, run_fetch_series_status]
    unfold run_series run_series_status
    exact ⟨happ.1.trans hrun.1, happ.2.trans hrun.2⟩
  · intro hfail
    rw [run_fetch_ok]
    unfold run_ok
    rcases hfail with h | h | ⟨kv, hmem, hok⟩
    · rw [run_fetch_source_status] at h
      rw [h]
      rfl
    · rw [run_fetch_source_status] at h
      rw [h]
      simp
    · rw [run_fetch_series_status] at hmem
      have hall : (run_series_status env).all (fun kv => kv.2.ok) = false := by
        cases hv : (run_series_status env).all (fun kv => kv.2.ok) with
        | false => rfl
        | true =>
            have := List.all_eq_true.mp hv kv hmem
            rw [hok] at this
            exact Bool.noConfusion this
      rw [hall]
      simp
  · rw [run_fetch_errors]
    unfold run_errors
    exact List.length_take_le 20 _
  · intro e he
    rw [run_fetch_errors] at he
    unfold run_errors at he
    have := List.take_subset 20 _ he
    have hp := List.of_mem_filter this
    simpa using hp

/-- Witness for C1 at a concrete environment in which every catalog
search throws: the first configured series is still present, the run is
not ok, and the error list is short. -/
theorem claim_C1_witness :
    ((run_fetch envAllFail).1.series.lookup "sora_level").isSome = true
    ∧ (run_fetch envAllFail).2.ok = false
    ∧ (run_fetch envAllFail).2.errors.length ≤ 20 := by
  have h := claim_C1_run_completeness envAllFail
  have hmem : intentAt 0 ∈ SERIES_INTENTS := by decide
  have hid : (intentAt 0).id = "sora_level" := rfl
  refine ⟨?_, ?_, h.2.2.1⟩
  · have h1 := (h.1 (intentAt 0) hmem).1
    rw [hid] at h1
    rw [h1]
    rfl
  · apply h.2.1
    left
    with_unfolding_all rfl

/-- C3 counterexample: the input `3Q2024` — a quarter digit, then `Q`,
then a 4-digit year in the same token — does not return `2024-Q3` for
frequency `quarterly`, and its result depends on the generic date parser,
so the pattern does not bypass generic parsing: with a parser that fails
it normalizes to nothing (no standalone year token exists either), and
with a parser answering `1999-01-01` it normalizes to `1999-Q1`. -/
theorem claim_C3_counterexample :
    normalize_period parseNone (some "3Q2024") "quarterly" = none
    ∧ normalize_period (fun _ => some ⟨1999, 1, 1⟩) (some "3Q2024") "quarterly"
        = some "1999-Q1"
    ∧ (none : Option String) ≠ some "2024-Q3"
    ∧ some "1999-Q1" ≠ some "2024-Q3" := by
  refine ⟨by with_unfolding_all rfl, by with_unfolding_all rfl, by decide, by decide⟩

/-- C3 (amended): the year-quarter fast path matches a 4-digit year
followed (possibly after non-digits) by `Q` and a digit 1-4, or — when
that fails — a 4-digit year followed (possibly after non-digits) by a
digit 1-4 and then `Q`; in both cases `normalize_period` returns
`"YYYY-Qn"` for every frequency and every generic parser, bypassing
generic date parsing. The reversed token order (`3Q2024`, quarter before
year) is not special-cased. In particular any input containing the token
`2024Q3` normalizes to `2024-Q3` for every frequency and parser. -/
theorem claim_C3_quarter_pattern (parse : String → Option CalDate)
    (value frequency : String) :
    (∀ y q, qSearch value.trim.data = some (y, q) →
        normalize_period parse (some value) frequency = some (⟨y⟩ ++ "-Q" ++ ⟨[q]⟩))
    ∧ (∀ y q, qSearch value.trim.data = none → altQSearch value.trim.data = some (y, q) →
        normalize_period parse (some value) frequency = some (⟨y⟩ ++ "-Q" ++ ⟨[q]⟩))
    ∧ normalize_period parse (some "x 2024Q3 y") frequency = some "2024-Q3" := by
  have main : ∀ (v : String) (y : List Char) (q : Char),
      qSearch v.trim.data = some (y, q) →
      normalize_period parse (some v) frequency = some (⟨y⟩ ++ "-Q" ++ ⟨[q]⟩) := by
    intro v y q h
    have hr : v.trim ≠ "" := by
      intro hr
      rw [hr] at h
      simp [qSearch] at h
    simp [normalize_period, hr, h]
  have alt : ∀ (v : String) (y : List Char) (q : Char),
      qSearch v.trim.data = none → altQSearch v.trim.data = some (y, q) →
      normalize_period parse (some v) frequency = some (⟨y⟩ ++ "-Q" ++ ⟨[q]⟩) := by
    intro v y q hq h
    have hr : v.trim ≠ "" := by
      intro hr
      rw [hr] at h
      simp [altQSearch] at h
    simp [normalize_period, hr, hq, h]
  refine ⟨main value, fun y q hq h => alt value y q hq h, ?_⟩
  have h := main "x 2024Q3 y" ['2', '0', '2', '4'] '3' (by with_unfolding_all rfl)
  rw [h]
  with_unfolding_all rfl

/-- Witness for the amended C3: a concrete year-then-`nQ` input with a
concrete parser normalizes via the fast path. -/
theorem claim_C3_witness :
    normalize_period (fun _ => some ⟨2030, 12, 31⟩) (some "x 2024 3Q y") "daily"
      = some "2024-Q3" := by
  have h := (claim_C3_quarter_pattern (fun _ => some ⟨2030, 12, 31⟩) "x 2024 3Q y" "daily").2.1
    ['2', '0', '2', '4'] '3' (by with_unfolding_all rfl) (by with_unfolding_all rfl)
  rw [h]
  with_unfolding_all rfl

/-- C6: for quarterly inputs missing both explicit year-quarter patterns,
a successful generic parse yields `"YYYY-Qn"` with `n = (month-1)/3 + 1`
(floor division); a failed parse with a standalone 4-digit year token
yields `"YYYY-Q1"`; and with no such token the result is absent. -/
theorem claim_C6_quarterly_fallback (parse : String → Option CalDate) (value : String)
    (hq : qSearch value.trim.data = none) (ha : altQSearch value.trim.data = none)
    (hne : value.trim ≠ "") :
    (∀ dt, parse value.trim = some dt →
        normalize_period parse (some value) "quarterly"
          = some (toString dt.year ++ "-Q" ++ toString ((dt.month - 1) / 3 + 1)))
    ∧ (parse value.trim = none → ∀ y, yearSearch value.trim.data = some y →
        normalize_period parse (some value) "quarterly" = some (⟨y⟩ ++ "-Q1"))
    ∧ (parse value.trim = none → yearSearch value.trim.data = none →
        normalize_period parse (some value) "quarterly" = none) := by
  refine ⟨?_, ?_, ?_⟩
  · intro dt hdt
    simp [normalize_period, hne, hq, ha, hdt]
  · intro hp y hy
    simp [normalize_period, hne, hq, ha, hp, hy]
  · intro hp hy
    simp [normalize_period, hne, hq, ha, hp, hy]

/-- Witness for C6: a parseable date lands in the computed quarter, and a
non-parseable string with a standalone year falls back to `Q1`. -/
theorem claim_C6_witness :
    normalize_period (fun _ => some ⟨2024, 5, 17⟩) (some "2024-05-17") "quarterly"
      = some "2024-Q2"
    ∧ normalize_period parseNone (some "around 2021 x") "quarterly" = some "2021-Q1" := by
  constructor
  · have h := (claim_C6_quarterly_fallback (fun _ => some ⟨2024, 5, 17⟩) "2024-05-17"
      (by with_unfolding_all rfl) (by with_unfolding_all rfl)
      (by with_unfolding_all decide)).1 ⟨2024, 5, 17⟩ rfl
    rw [h]
    with_unfolding_all rfl
  · have h := (claim_C6_quarterly_fallback parseNone "around 2021 x"
      (by with_unfolding_all rfl) (by with_unfolding_all rfl)
      (by with_unfolding_all decide)).2.1 rfl ['2', '0', '2', '1']
      (by with_unfolding_all rfl)
    rw [h]
    with_unfolding_all rfl

/-- C5 counterexample: with a 221-character fetch exception message, the
error string recorded at the intent boundary for `sora_level` has length
223 (the first 220 characters plus a three-character ellipsis), which
exceeds 220; the payload note `Fetch failed` confirms the exception
branch was taken. -/
theorem claim_C5_counterexample :
    ((run_fetch envLongError).2.series_status.lookup "sora_level").map
        (fun s => (s.ok, s.error.length)) = some (false, 223)
    ∧ ((run_fetch envLongError).1.series.lookup "sora_level").map ResolvedSeries.note
        = some (some "Fetch failed")
    ∧ ¬ (223 ≤ 220) := by
  refine ⟨by with_unfolding_all rfl, by with_unfolding_all rfl, by decide⟩

/-- C5 (amended): when an intent resolves a dataset and its CSV fetch
throws, the per-series status recorded in the status payload is exactly
the failed status carrying `truncate_error` of the exception message, and
that string has length at most 223 (220 kept characters plus the
appended `...`); messages of at most 220 characters are recorded
verbatim. -/
theorem claim_C5_boundary_error (env : FetchEnv) (i : SeriesIntent)
    (hi : i ∈ SERIES_INTENTS) (pkg : Package) (res : Resource) (msg : String)
    (hres : (resolve_dataset env.search initSourceStatus i).1 = (some pkg, some res))
    (hfetch : env.fetchCSV (res.url.getD "") = .error msg) :
    (run_fetch env).2.series_status.lookup i.id
      = some ⟨false, none, truncate_error msg 220⟩
    ∧ (truncate_error msg 220).length ≤ 223
    ∧ (msg.length ≤ 220 → truncate_error msg 220 = msg) := by
  have hder : ∀ d ∈ derivedIds, i.id ≠ d := intent_ids_not_derived i hi
  have happ := apply_derived_lookup_intent
    (run_intents_from env SERIES_INTENTS (([], []), initSourceStatus)).1.1
    (run_intents_from env SERIES_INTENTS (([], []), initSourceStatus)).1.2 i.id hder
  have hrun := run_intents_from_lookup env SERIES_INTENTS (([], []), initSourceStatus)
    i hi intent_ids_nodup
  have hp : (process_intent env initSourceStatus i).1.2
      = ⟨false, none, truncate_error msg 220⟩ := by
    show (process_intent_out env (resolve_dataset env.search initSourceStatus i).1 i).2 = _
    rw [hres]
    unfold process_intent_out
    simp [hfetch]
  refine ⟨?_, truncate_error_length msg, truncate_error_short msg⟩
  rw [run_fetch_series_status]
  unfold run_series_status
  rw [happ.2, hrun.2, hp]

/-- Witness for the amended C5 at the concrete long-message environment. -/
theorem claim_C5_witness :
    (run_fetch envLongError).2.series_status.lookup "sora_level"
      = some ⟨false, none, truncate_error longMsg 220⟩
    ∧ (truncate_error longMsg 220).length ≤ 223 := by
  have h := claim_C5_boundary_error envLongError (intentAt 0) (by decide)
    pkgCsv ⟨some "CSV", some "http://x/data.csv"⟩ longMsg
    (by with_unfolding_all rfl) (by with_unfolding_all rfl)
  have hid : (intentAt 0).id = "sora_level" := rfl
  rw [hid] at h
  exact ⟨h.1, h.2.1⟩

/-- C8: for a series with at least `window` points the moving-average
derivation emits one point per position `i = window-1+j`, whose period is
the source period at index `i` and whose value is the arithmetic mean of
the source values at indices `j .. j+window-1`; a series with fewer
points than the window produces nothing; window 3 over
`[(P1,1),(P2,2),(P3,3),(P4,4)]` yields `[(P3,2.0),(P4,3.0)]`. -/
theorem claim_C8_moving_average :
    (∀ (s : ResolvedSeries) (window : Nat), 1 ≤ window → window ≤ s.data.length →
      (derive_moving_average s window).isSome = true
      ∧ ∀ d, derive_moving_average s window = some d →
          d.data.length = s.data.length + 1 - window
          ∧ ∀ j, j < d.data.length →
              d.data.getD j ("", 0)
                = ((s.data.getD (window - 1 + j) ("", 0)).1,
                   (((s.data.drop j).take window).map Prod.snd).sum / (window : ℚ)))
    ∧ (∀ (s : ResolvedSeries) (window : Nat), s.data.length < window →
        derive_moving_average s window = none)
    ∧ (derive_moving_average (mkSeries [("P1", 1), ("P2", 2), ("P3", 3), ("P4", 4)]) 3).map
        ResolvedSeries.data = some [("P3", 2), ("P4", 3)] := by
  refine ⟨?_, ?_, by with_unfolding_all rfl⟩
  · intro s window hw hlen
    have hnl : ¬ s.data.length < window := by omega
    have hdata : ∀ d, derive_moving_average s window = some d →
        d.data = (List.range' (window - 1) (s.data.length - (window - 1))).map
          (fun i => ((s.data.map Prod.fst).getD i "",
            (((s.data.map Prod.snd).drop (i + 1 - window)).take window).sum / (window : ℚ))) := by
      intro d hd
      simp only [derive_moving_average, if_neg hnl] at hd
      cases hd
      rfl
    constructor
    · simp only [derive_moving_average, if_neg hnl]
      rfl
    · intro d hd
      rw [hdata d hd]
      have hlen' : ((List.range' (window - 1) (s.data.length - (window - 1))).map
          (fun i => ((s.data.map Prod.fst).getD i "",
            (((s.data.map Prod.snd).drop (i + 1 - window)).take window).sum
              / (window : ℚ)))).length = s.data.length + 1 - window := by
        rw [List.length_map, List.length_range']
        omega
      refine ⟨hlen', ?_⟩
      intro j hj
      rw [hlen'] at hj
      have hjlt : j < ((List.range' (window - 1) (s.data.length - (window - 1))).map
          (fun i => ((s.data.map Prod.fst).getD i "",
            (((s.data.map Prod.snd).drop (i + 1 - window)).take window).sum
              / (window : ℚ)))).length := by
        rw [List.length_map, List.length_range']
        omega
      rw [List.getD_eq_getElem _ _ hjlt, List.getElem_map, List.getElem_range']
      have hr : window - 1 + 1 * j = window - 1 + j := by omega
      rw [hr]
      have e1 : (s.data.map Prod.fst).getD (window - 1 + j) ""
          = (s.data.getD (window - 1 + j) ("", 0)).1 := by
        have hi : window - 1 + j < s.data.length := by omega
        have hi' : window - 1 + j < (s.data.map Prod.fst).length := by
          rw [List.length_map]
          omega
        rw [List.getD_eq_getElem _ _ hi', List.getElem_map, List.getD_eq_getElem _ _ hi]
      have e2 : window - 1 + j + 1 - window = j := by omega
      have e3 : ((s.data.map Prod.snd).drop j).take window
          = ((s.data.drop j).take window).map Prod.snd := by
        rw [List.map_take, List.map_drop]
      rw [e1, e2, e3]
  · intro s window h
    simp [derive_moving_average, h]

/-- Witness for C8 at the concrete four-point series with window 3. -/
theorem claim_C8_witness :
    (derive_moving_average (mkSeries [("P1", 1), ("P2", 2), ("P3", 3), ("P4", 4)]) 3).isSome
        = true
    ∧ (derive_moving_average (mkSeries [("Q1", 5)]) 7) = none := by
  constructor
  · exact (claim_C8_moving_average.1 (mkSeries [("P1", 1), ("P2", 2), ("P3", 3), ("P4", 4)]) 3
      (by decide) (by with_unfolding_all decide)).1
  · exact claim_C8_moving_average.2.1 (mkSeries [("Q1", 5)]) 7 (by with_unfolding_all decide)

/-- The 10-year series data of a series map. -/
def tenOf (m : List (String × ResolvedSeries)) : List (String × ℚ) :=
  dataOf m "sgs_yield_10y"

/-- The spread base data: the 2-year series when present and non-empty,
else the 1-year series (specification wording). -/
def baseOf (m : List (String × ResolvedSeries)) : List (String × ℚ) :=
  if dataOf m "sgs_yield_2y" = [] then dataOf m "sgs_yield_1y"
  else dataOf m "sgs_yield_2y"

theorem lastVal_isSome_iff (pts : List (String × ℚ)) (p : String) :
    (lastVal pts p).isSome = true ↔ p ∈ pts.map Prod.fst := by
  unfold lastVal
  rw [Option.isSome_iff_ne_none, ne_eq, List.getLast?_eq_none_iff, List.map_eq_nil_iff]
  constructor
  · intro h
    rcases List.exists_mem_of_ne_nil _ h with ⟨q, hq⟩
    have hq' := List.mem_filter.mp hq
    exact List.mem_map.mpr ⟨q, hq'.1, by simpa using hq'.2⟩
  · intro h hnil
    rcases List.mem_map.mp h with ⟨q, hq, hqp⟩
    have hmemf : q ∈ pts.filter (fun r => r.1 == p) :=
      List.mem_filter.mpr ⟨hq, by simp [hqp]⟩
    rw [hnil] at hmemf
    cases hmemf

/-- A two-entry series map realizing the spec's spread example. -/
def exSpreadMap : List (String × ResolvedSeries) :=
  [("sgs_yield_10y", mkSeries [("2024-Q1", 7/2), ("2024-Q2", 18/5)]),
   ("sgs_yield_2y", mkSeries [("2024-Q1", 3)])]

/-- C7: the spread uses the 2-year data as base when non-empty, else the
1-year data; it produces nothing exactly when the 10Y data or the base
data is empty or they share no period key; when it produces a series,
its points are exactly the shared periods with value 10Y minus base
(inner join, duplicate periods resolved to the last occurrence as the
source dict comprehensions do); the spec example yields
`[("2024-Q1", 0.5)]`. -/
theorem claim_C7_spread :
    (∀ m, (derive_curve_slope m = none ↔
        tenOf m = [] ∨ baseOf m = []
        ∨ ∀ p, ¬((lastVal (tenOf m) p).isSome = true
                 ∧ (lastVal (baseOf m) p).isSome = true))
      ∧ ∀ sl, derive_curve_slope m = some sl →
          ∀ p v, ((p, v) ∈ sl.data ↔
            ∃ tv bv, lastVal (tenOf m) p = some tv ∧ lastVal (baseOf m) p = some bv
              ∧ v = tv - bv))
    ∧ (derive_curve_slope exSpreadMap).map ResolvedSeries.data
        = some [("2024-Q1", 1/2)] := by
  refine ⟨?_, by with_unfolding_all rfl⟩
  intro m
  have hbase : (if (dataOf m "sgs_yield_2y").isEmpty then dataOf m "sgs_yield_1y"
      else dataOf m "sgs_yield_2y") = baseOf m := by
    unfold baseOf
    by_cases h2 : dataOf m "sgs_yield_2y" = []
    · simp [h2]
    · simp [h2, List.isEmpty_iff]
  set ten := tenOf m with hten
  set base := baseOf m with hbasedef
  set shared := List.insertionSort (fun a b => a ≤ b)
    (((ten.map Prod.fst).dedup).filter (fun p => decide (p ∈ base.map Prod.fst)))
    with hshared
  have hmem_shared : ∀ p, p ∈ shared ↔ p ∈ ten.map Prod.fst ∧ p ∈ base.map Prod.fst := by
    intro p
    rw [hshared, (List.perm_insertionSort _ _).mem_iff, List.mem_filter, List.mem_dedup,
      decide_eq_true_iff]
  have hunf : derive_curve_slope m
      = if ten.isEmpty || base.isEmpty then none
        else if (shared.map (fun p =>
            (p, (lastVal ten p).getD 0 - (lastVal base p).getD 0))).isEmpty then none
        else some
          { display_name := "Yield Curve Slope (10Y-"
              ++ (if !(dataOf m "sgs_yield_2y").isEmpty then "2Y"
                  else if !(dataOf m "sgs_yield_1y").isEmpty then "1Y" else "None") ++ ")",
            frequency := "daily", unit := "percentage_points",
            source := ⟨"derived", "Derived from fetched yields", ""⟩,
            last_observation_period := some ((shared.map (fun p =>
              (p, (lastVal ten p).getD 0 - (lastVal base p).getD 0))).getLastD ("", 0)).1,
            data := shared.map (fun p =>
              (p, (lastVal ten p).getD 0 - (lastVal base p).getD 0)),
            note := none } := by
    simp only [derive_curve_slope]
    rw [hbase]
    rfl
  have hdata_nil : (shared.map (fun p =>
      (p, (lastVal ten p).getD 0 - (lastVal base p).getD 0))) = [] ↔
      (∀ p, ¬((lastVal ten p).isSome = true ∧ (lastVal base p).isSome = true)) := by
    rw [List.map_eq_nil_iff]
    constructor
    · intro hnil p hp
      have := (hmem_shared p).mpr
        ⟨(lastVal_isSome_iff ten p).mp hp.1, (lastVal_isSome_iff base p).mp hp.2⟩
      rw [hnil] at this
      cases this
    · intro hall
      by_contra hne
      rcases List.exists_mem_of_ne_nil _ hne with ⟨p, hp⟩
      have hm := (hmem_shared p).mp hp
      exact hall p ⟨(lastVal_isSome_iff ten p).mpr hm.1, (lastVal_isSome_iff base p).mpr hm.2⟩
  constructor
  · rw [hunf]
    by_cases h1 : (ten.isEmpty || base.isEmpty) = true
    · rw [if_pos h1]
      have h1' : ten = [] ∨ base = [] := by
        simpa [List.isEmpty_iff] using h1
      constructor
      · intro _
        rcases h1' with h | h
        · exact Or.inl h
        · exact Or.inr (Or.inl h)
      · intro _
        rfl
    · rw [if_neg h1]
      have h1' : ¬ ten = [] ∧ ¬ base = [] := by
        simpa [List.isEmpty_iff, not_or] using h1
      by_cases h2 : (shared.map (fun p =>
          (p, (lastVal ten p).getD 0 - (lastVal base p).getD 0))) = []
      · rw [if_pos (by simpa [List.isEmpty_iff] using h2)]
        constructor
        · intro _
          exact Or.inr (Or.inr (hdata_nil.mp h2))
        · intro _
          rfl
      · rw [if_neg (by simpa [List.isEmpty_iff] using h2)]
        constructor
        · intro hc
          cases hc
        · rintro (h | h | hall)
          · exact (h1'.1 h).elim
          · exact (h1'.2 h).elim
          · exact (h2 (hdata_nil.mpr hall)).elim
  · intro sl hsl p v
    rw [hunf] at hsl
    by_cases h1 : (ten.isEmpty || base.isEmpty) = true
    · rw [if_pos h1] at hsl
      cases hsl
    · rw [if_neg h1] at hsl
      by_cases h2 : (shared.map (fun p =>
          (p, (lastVal ten p).getD 0 - (lastVal base p).getD 0))) = []
      · rw [if_pos (by simpa [List.isEmpty_iff] using h2)] at hsl
        cases hsl
      · rw [if_neg (by simpa [List.isEmpty_iff] using h2)] at hsl
        cases hsl
        show (p, v) ∈ shared.map (fun p =>
            (p, (lastVal ten p).getD 0 - (lastVal base p).getD 0)) ↔ _
        constructor
        · intro hmem
          rcases List.mem_map.mp hmem with ⟨q, hq, hqv⟩
          have hq1 : q = p := congrArg Prod.fst hqv
          subst hq1
          have hv : (lastVal ten q).getD 0 - (lastVal base q).getD 0 = v :=
            congrArg Prod.snd hqv
          have hks := (hmem_shared q).mp hq
          rcases Option.isSome_iff_exists.mp ((lastVal_isSome_iff ten q).mpr hks.1)
            with ⟨tv, htv⟩
          rcases Option.isSome_iff_exists.mp ((lastVal_isSome_iff base q).mpr hks.2)
            with ⟨bv, hbv⟩
          refine ⟨tv, bv, htv, hbv, ?_⟩
          rw [← hv, htv, hbv]
          rfl
        · rintro ⟨tv, bv, htv, hbv, hv⟩
          have hks : p ∈ shared := (hmem_shared p).mpr
            ⟨(lastVal_isSome_iff ten p).mp (by rw [htv]; rfl),
             (lastVal_isSome_iff base p).mp (by rw [hbv]; rfl)⟩
          refine List.mem_map.mpr ⟨p, hks, ?_⟩
          rw [htv, hbv, hv]
          rfl

/-- Witness for C7: at the concrete example map the derivation is not
`none`, and its single point is the inner-join difference. -/
theorem claim_C7_witness :
    derive_curve_slope exSpreadMap ≠ none
    ∧ ∀ sl, derive_curve_slope exSpreadMap = some sl → ("2024-Q1", 1/2) ∈ sl.data := by
  constructor
  · intro hnone
    have h2 := claim_C7_spread.2
    rw [hnone] at h2
    cases h2
  · intro sl hsl
    refine (((claim_C7_spread.1 exSpreadMap).2 sl hsl) "2024-Q1" (1/2)).mpr
      ⟨7/2, 3, by with_unfolding_all rfl, by with_unfolding_all rfl,
        by with_unfolding_all rfl⟩

theorem groupLast_periods (pairs : List (String × ℚ)) :
    (groupLastSortValues pairs).map Prod.fst
      = List.insertionSort (fun a b => a ≤ b) (pairs.map Prod.fst).dedup := by
  unfold groupLastSortValues
  have hc : (Prod.fst ∘ fun k : String => (k, (lastVal pairs k).getD 0)) = id := rfl
  rw [List.map_map, hc, List.map_id]

theorem groupLast_sorted (pairs : List (String × ℚ)) :
    List.Sorted (fun a b => a < b) ((groupLastSortValues pairs).map Prod.fst) := by
  rw [groupLast_periods]
  have hle : List.Sorted (fun a b : String => a ≤ b)
      (List.insertionSort (fun a b => a ≤ b) (pairs.map Prod.fst).dedup) :=
    List.sorted_insertionSort _ _
  have hnd : (List.insertionSort (fun a b : String => a ≤ b)
      (pairs.map Prod.fst).dedup).Nodup :=
    ((List.perm_insertionSort _ _).nodup_iff).mpr (List.nodup_dedup _)
  exact List.Sorted.lt_of_le hle hnd

theorem groupLast_last_wins (pairs : List (String × ℚ)) (p : String) (v : ℚ)
    (h : (p, v) ∈ groupLastSortValues pairs) : lastVal pairs p = some v := by
  unfold groupLastSortValues at h
  rcases List.mem_map.mp h with ⟨k, hk, hkv⟩
  have hk1 : k = p := congrArg Prod.fst hkv
  subst hk1
  have hv : (lastVal pairs k).getD 0 = v := congrArg Prod.snd hkv
  have hkmem : k ∈ pairs.map Prod.fst :=
    List.mem_dedup.mp ((List.perm_insertionSort _ _).mem_iff.mp hk)
  rcases Option.isSome_iff_exists.mp ((lastVal_isSome_iff pairs k).mpr hkmem) with ⟨w, hw⟩
  rw [hw]
  rw [hw] at hv
  simpa using hv

theorem parse_series_cases (toNum : Cell → Option ℚ) (parse : String → Option CalDate)
    (rmatch : String → String → Bool) (df : DataFrame) (intent : SeriesIntent) :
    parse_series toNum parse rmatch df intent = []
    ∨ parse_series toNum parse rmatch df intent
        = groupLastSortValues (surviving_pairs toNum parse rmatch df intent) := by
  unfold parse_series
  by_cases h1 : df.isEmptyDf = true
  · rw [if_pos h1]
    exact Or.inl rfl
  · rw [if_neg h1]
    by_cases h2 : (apply_filters rmatch df intent.filters).isEmptyDf = true
    · rw [if_pos h2]
      exact Or.inl rfl
    · rw [if_neg h2]
      by_cases h3 : (surviving_pairs toNum parse rmatch df intent).isEmpty = true
      · rw [if_pos h3]
        exact Or.inl rfl
      · rw [if_neg h3]
        exact Or.inr rfl

/-- C2: for every table, intent and external collaborators, the periods
of `parse_series` output are pairwise distinct and strictly increasing in
string order, and every emitted value is the value of the last surviving
row with that period in original row order; in particular two rows both
normalizing to `2025-Q1` with values 1.0 then 2.0 yield exactly
`[("2025-Q1", 2.0)]`. -/
theorem claim_C2_parse_series :
    (∀ (toNum : Cell → Option ℚ) (parse : String → Option CalDate)
        (rmatch : String → String → Bool) (df : DataFrame) (intent : SeriesIntent),
      List.Sorted (fun a b => a < b)
        ((parse_series toNum parse rmatch df intent).map Prod.fst)
      ∧ ∀ p v, (p, v) ∈ parse_series toNum parse rmatch df intent →
          lastVal (surviving_pairs toNum parse rmatch df intent) p = some v)
    ∧ parse_series toNumEx parseNone rmatchNone dupDf (intentAt 6) = [("2025-Q1", 2)] := by
  constructor
  · intro toNum parse rmatch df intent
    rcases parse_series_cases toNum parse rmatch df intent with h | h
    · rw [h]
      exact ⟨List.sorted_nil, fun p v hm => absurd hm (List.not_mem_nil _)⟩
    · rw [h]
      exact ⟨groupLast_sorted _, fun p v hm => groupLast_last_wins _ p v hm⟩
  · with_unfolding_all rfl

/-- Witness for C2: at the concrete duplicate-quarter table, the emitted
value 2 is indeed the last surviving value for `2025-Q1`. -/
theorem claim_C2_witness :
    lastVal (surviving_pairs toNumEx parseNone rmatchNone dupDf (intentAt 6)) "2025-Q1"
      = some 2 := by
  refine (claim_C2_parse_series.1 toNumEx parseNone rmatchNone dupDf (intentAt 6)).2
    "2025-Q1" 2 ?_
  rw [claim_C2_parse_series.2]
  exact List.mem_singleton.mpr rfl

theorem insertionSort_head_firstMax (l : List (String × Nat)) :
    (List.insertionSort (fun a b => b.2 ≤ a.2) l).head? = firstMaxCount l := by
  induction l with
  | nil => rfl
  | cons a t ih =>
      rw [List.insertionSort]
      cases hs : List.insertionSort (fun a b => b.2 ≤ a.2) t with
      | nil =>
          have ht : t = [] := by
            have hp := List.perm_insertionSort (fun a b : String × Nat => b.2 ≤ a.2) t
            rw [hs] at hp
            exact (hp.symm).eq_nil
          subst ht
          rfl
      | cons b s =>
          have hfm : firstMaxCount t = some b := by
            rw [← ih, hs]
            rfl
          rw [firstMaxCount, hfm]
          by_cases hr : b.2 ≤ a.2
          · simp [List.orderedInsert, hr]
          · simp [List.orderedInsert, hr]

theorem firstMaxCount_none_iff (l : List (String × Nat)) :
    firstMaxCount l = none ↔ l = [] := by
  cases l with
  | nil => simp [firstMaxCount]
  | cons a t =>
      simp only [firstMaxCount]
      cases firstMaxCount t with
      | none => simp
      | some m =>
          by_cases hr : m.2 ≤ a.2 <;> simp [hr]

theorem filterMap_pos_eq (cols : List String) (cnt : String → Nat) :
    (cols.filterMap (fun col => if 0 < cnt col then some (col, cnt col) else none))
      = (cols.map (fun col => (col, cnt col))).filter (fun x => decide (0 < x.2)) := by
  induction cols with
  | nil => rfl
  | cons c t ih =>
      by_cases h : 0 < cnt c
      · simp [h, ih]
      · simp [h, ih]

theorem firstMax_filter_pos (l : List (String × Nat)) :
    firstMaxCount (l.filter (fun x => decide (0 < x.2)))
      = (firstMaxCount l).bind (fun m => if m.2 = 0 then none else some m) := by
  induction l with
  | nil => rfl
  | cons a t ih =>
      by_cases ha : 0 < a.2
      · have ha' : ¬ a.2 = 0 := by omega
        rw [show (a :: t).filter (fun x => decide (0 < x.2))
            = a :: t.filter (fun x => decide (0 < x.2)) by simp [ha]]
        simp only [firstMaxCount]
        rw [ih]
        cases hm : firstMaxCount t with
        | none => simp [ha']
        | some m =>
            by_cases hz : m.2 = 0
            · have hr : m.2 ≤ a.2 := by omega
              simp [hz, hr, ha']
            · by_cases hr : m.2 ≤ a.2
              · simp [hz, hr, ha']
              · simp [hz, hr]
      · have ha0 : a.2 = 0 := by omega
        rw [show (a :: t).filter (fun x => decide (0 < x.2))
            = t.filter (fun x => decide (0 < x.2)) by simp [ha]]
        rw [ih]
        simp only [firstMaxCount]
        cases hm : firstMaxCount t with
        | none => simp [ha0]
        | some m =>
            by_cases hz : m.2 = 0
            · have hr : m.2 ≤ a.2 := by omega
              simp [hz, hr, ha0]
            · have hr : ¬ m.2 ≤ a.2 := by omega
              simp [hz, hr]

theorem firstMax_map_spec (cols : List String) (cnt : String → Nat) (c : String) (n : Nat)
    (h : firstMaxCount (cols.map (fun col => (col, cnt col))) = some (c, n)) :
    n = cnt c ∧ c ∈ cols ∧ (∀ d ∈ cols, cnt d ≤ n)
    ∧ ∃ pre suf, cols = pre ++ c :: suf ∧ ∀ d ∈ pre, cnt d < n := by
  induction cols generalizing c n with
  | nil => cases h
  | cons a t ih =>
      rw [List.map_cons, firstMaxCount] at h
      cases hm : firstMaxCount (t.map (fun col => (col, cnt col))) with
      | none =>
          simp only [hm] at h
          have ht : t = [] := by
            have := (firstMaxCount_none_iff _).mp hm
            simpa [List.map_eq_nil_iff] using this
          subst ht
          obtain ⟨hc, hn⟩ := Prod.mk.injEq .. |>.mp (Option.some.inj h)
          subst hc
          subst hn
          refine ⟨rfl, List.mem_singleton.mpr rfl, ?_, [], [], rfl, ?_⟩
          · intro d hd
            rw [List.mem_singleton.mp hd]
          · intro d hd
            cases hd
      | some m =>
          simp only [hm] at h
          have ihm := ih m.1 m.2 (by rw [hm])
          by_cases hr : m.2 ≤ cnt a
          · rw [if_pos hr] at h
            obtain ⟨hc, hn⟩ := Prod.mk.injEq .. |>.mp (Option.some.inj h)
            subst hc
            subst hn
            refine ⟨rfl, List.mem_cons_self _ _, ?_, [], t, rfl, ?_⟩
            · intro d hd
              rcases List.mem_cons.mp hd with hda | hdt
              · rw [hda]
              · exact le_trans (ihm.2.2.1 d hdt) hr
            · intro d hd
              cases hd
          · rw [if_neg hr] at h
            obtain ⟨hc, hn⟩ := Prod.mk.injEq .. |>.mp (Option.some.inj h)
            rcases ihm with ⟨ih1, ih2, ih3, pre, suf, ih4, ih5⟩
            rw [hc] at ih2 ih4
            rw [hc] at ih1
            rw [hn] at ih1 ih3 ih5 hr
            refine ⟨ih1, List.mem_cons_of_mem a ih2, ?_, a :: pre, suf, by rw [ih4]; rfl, ?_⟩
            · intro d hd
              rcases List.mem_cons.mp hd with hda | hdt
              · rw [hda]
                omega
              · exact ih3 d hdt
            · intro d hd
              rcases List.mem_cons.mp hd with hda | hdp
              · rw [hda]
                omega
              · exact ih5 d hdp

/-- C9: when no preferred value-column hint matches, `find_value_column`
returns exactly the column described by the fallback specification: the
column with the greatest count of numeric-coercible cells, ties broken in
favor of the first-encountered column, and absent exactly when every
column coerces to all-missing. -/
theorem claim_C9_value_column (toNum : Cell → Option ℚ) (df : DataFrame)
    (intent : SeriesIntent)
    (h : choose_column df.columns intent.preferred_value_columns = none) :
    find_value_column toNum df intent = bestNumericColumn toNum df
    ∧ (bestNumericColumn toNum df = none ↔ ∀ col ∈ df.columns, colCount toNum df col = 0)
    ∧ ∀ c, bestNumericColumn toNum df = some c →
        c ∈ df.columns ∧ 0 < colCount toNum df c
        ∧ (∀ d ∈ df.columns, colCount toNum df d ≤ colCount toNum df c)
        ∧ ∃ pre suf, df.columns = pre ++ c :: suf
            ∧ ∀ d ∈ pre, colCount toNum df d < colCount toNum df c := by
  have heq : find_value_column toNum df intent = bestNumericColumn toNum df := by
    unfold find_value_column
    rw [h]
    show ((List.insertionSort (fun a b => b.2 ≤ a.2)
        (df.columns.filterMap (fun col =>
          if 0 < colCount toNum df col then some (col, colCount toNum df col)
          else none))).head?).map Prod.fst = _
    rw [filterMap_pos_eq df.columns (colCount toNum df), insertionSort_head_firstMax,
      firstMax_filter_pos]
    unfold bestNumericColumn
    cases firstMaxCount (df.columns.map (fun col => (col, colCount toNum df col))) with
    | none => rfl
    | some m =>
        by_cases hz : m.2 = 0
        · simp [hz]
        · simp [hz]
  refine ⟨heq, ?_, ?_⟩
  · unfold bestNumericColumn
    cases hm : firstMaxCount (df.columns.map (fun col => (col, colCount toNum df col))) with
    | none =>
        have hnil : df.columns = [] := by
          have := (firstMaxCount_none_iff _).mp hm
          simpa [List.map_eq_nil_iff] using this
        simp [hnil]
    | some m =>
        have hspec := firstMax_map_spec df.columns (colCount toNum df) m.1 m.2 (by rw [hm])
        by_cases hz : m.2 = 0
        · simp only [Option.some_bind, hz, if_pos rfl]
          constructor
          · intro _ col hcol
            have := hspec.2.2.1 col hcol
            omega
          · intro _
            rfl
        · simp only [Option.some_bind, if_neg hz]
          constructor
          · intro hc
            cases hc
          · intro hall
            exact absurd (hspec.1 ▸ hall m.1 hspec.2.1) hz
  · intro c hc
    unfold bestNumericColumn at hc
    cases hm : firstMaxCount (df.columns.map (fun col => (col, colCount toNum df col))) with
    | none => rw [hm] at hc; cases hc
    | some m =>
        rw [hm] at hc
        by_cases hz : m.2 = 0
        · simp [hz] at hc
        · simp only [Option.some_bind, if_neg hz] at hc
          have hmc : m.1 = c := Option.some.inj hc
          have hspec := firstMax_map_spec df.columns (colCount toNum df) m.1 m.2 (by rw [hm])
          rcases hspec with ⟨h1, h2, h3, pre, suf, h4, h5⟩
          rw [hmc] at h1 h2 h4
          rw [h1] at h3 h5 hz
          refine ⟨h2, by omega, h3, pre, suf, h4, h5⟩

/-- A table and intent exercising the C9 fallback: no value hint matches,
column `b` has the most numeric cells. -/
def df9 : DataFrame :=
  ⟨["a", "b"], [[some "x", some "1"], [some "2", some "3"]]⟩

/-- An intent whose value-column hints match nothing in `df9`. -/
def intent9 : SeriesIntent :=
  ⟨"x", "x", "daily", "u", "s", [], [], ["zzz"], none⟩

/-- Witness for C9 at the concrete table: the fallback picks column `b`. -/
theorem claim_C9_witness :
    find_value_column toNumEx df9 intent9 = some "b"
    ∧ bestNumericColumn toNumEx df9 = some "b" := by
  have h := claim_C9_value_column toNumEx df9 intent9 (by with_unfolding_all rfl)
  have hb : bestNumericColumn toNumEx df9 = some "b" := by with_unfolding_all rfl
  exact ⟨h.1.trans hb, hb⟩

/-- The resolver's best-so-far accumulator replayed over an explicit
candidate list: replace the best on a strictly greater score. -/
def candFold : List (Package × Resource × Int) → Option (Package × Resource) → Int →
    Option (Package × Resource) × Int
  | [], best, s => (best, s)
  | c :: rest, best, s =>
      if s < c.2.2 then candFold rest (some (c.1, c.2.1)) c.2.2 else candFold rest best s

theorem score_package_nonneg (pkg : Package) (query : String) :
    0 ≤ score_package pkg query := by
  simp only [score_package]
  split_ifs <;> omega

theorem csvCandidates_scores_nonneg (search : String → Except String (List Package))
    (qs : List String) : ∀ c ∈ csvCandidates search qs, 0 ≤ c.2.2 := by
  induction qs with
  | nil => intro c hc; cases hc
  | cons q t ih =>
      intro c hc
      rw [csvCandidates] at hc
      rcases List.mem_append.mp hc with hc1 | hc2
      · cases hs : search q with
        | error e => rw [hs] at hc1; cases hc1
        | ok packages =>
            rw [hs] at hc1
            rcases List.mem_filterMap.mp hc1 with ⟨pkg, _, hpk⟩
            cases hf : pkg.resources.filter isCSV with
            | nil => rw [hf] at hpk; cases hpk
            | cons r rs =>
                rw [hf] at hpk
                cases hpk
                exact score_package_nonneg pkg q
      · exact ih c hc2

theorem scan_packages_eq (query : String) (packages : List Package)
    (best : Option (Package × Resource)) (s : Int) :
    scan_packages query packages best s = candFold (pkgCands query packages) best s := by
  induction packages generalizing best s with
  | nil => rfl
  | cons pkg rest ih =>
      rw [scan_packages]
      cases hf : pkg.resources.filter isCSV with
      | nil =>
          have hpc : pkgCands query (pkg :: rest) = pkgCands query rest := by
            unfold pkgCands
            rw [List.filterMap_cons, hf]
          show scan_packages query rest best s = _
          rw [hpc, ih]
      | cons r rs =>
          have hpc : pkgCands query (pkg :: rest)
              = (pkg, r, score_package pkg query) :: pkgCands query rest := by
            unfold pkgCands
            rw [List.filterMap_cons, hf]
          show (if s < score_package pkg query then
                scan_packages query rest (some (pkg, r)) (score_package pkg query)
              else scan_packages query rest best s) = _
          rw [hpc, candFold]
          by_cases hlt : s < score_package pkg query
          · rw [if_pos hlt, if_pos hlt, ih]
          · rw [if_neg hlt, if_neg hlt, ih]

theorem candFold_append (l1 l2 : List (Package × Resource × Int))
    (b : Option (Package × Resource)) (s : Int) :
    candFold (l1 ++ l2) b s = candFold l2 (candFold l1 b s).1 (candFold l1 b s).2 := by
  induction l1 generalizing b s with
  | nil => rfl
  | cons c rest ih =>
      rw [List.cons_append, candFold, candFold]
      by_cases hlt : s < c.2.2
      · rw [if_pos hlt, if_pos hlt, ih]
      · rw [if_neg hlt, if_neg hlt, ih]

theorem resolve_go_fst_eq_candFold (search : String → Except String (List Package))
    (qs : List String) (best : Option (Package × Resource)) (s : Int) (st : SourceStatus) :
    (resolve_go search qs best s st).1 = (candFold (csvCandidates search qs) best s).1 := by
  induction qs generalizing best s st with
  | nil => rfl
  | cons q t ih =>
      rw [resolve_go, csvCandidates]
      cases hs : search q with
      | error e =>
          rw [ih]
          rfl
      | ok packages =>
          rw [ih, scan_packages_eq, candFold_append]

theorem candFold_spec (l : List (Package × Resource × Int))
    (b : Option (Package × Resource)) (s : Int) (hs : -1 ≤ s)
    (hnn : ∀ c ∈ l, 0 ≤ c.2.2) :
    candFold l b s = if s < bestScore l then (firstBest l, bestScore l) else (b, s) := by
  induction l generalizing b s with
  | nil =>
      rw [candFold, bestScore, if_neg (by omega)]
  | cons c rest ih =>
      have hc : 0 ≤ c.2.2 := hnn c (List.mem_cons_self c rest)
      have hrest : ∀ x ∈ rest, 0 ≤ x.2.2 := fun x hx => hnn x (List.mem_cons_of_mem c hx)
      rw [candFold, bestScore, firstBest]
      by_cases hlt : s < c.2.2
      · rw [if_pos hlt, ih (some (c.1, c.2.1)) c.2.2 (by omega) hrest]
        by_cases hm : c.2.2 < bestScore rest
        · rw [if_pos hm, if_pos (by omega : s < max c.2.2 (bestScore rest)),
            if_neg (by omega : ¬ bestScore rest ≤ c.2.2)]
          congr 1
          omega
        · rw [if_neg hm, if_pos (by omega : s < max c.2.2 (bestScore rest)),
            if_pos (by omega : bestScore rest ≤ c.2.2)]
          congr 1
          omega
      · rw [if_neg hlt, ih b s hs hrest]
        by_cases hm : s < bestScore rest
        · rw [if_pos hm, if_pos (by omega : s < max c.2.2 (bestScore rest)),
            if_neg (by omega : ¬ bestScore rest ≤ c.2.2)]
          congr 1
          omega
        · rw [if_neg hm, if_neg (by omega : ¬ s < max c.2.2 (bestScore rest))]

theorem firstBest_isSome (l : List (Package × Resource × Int))
    (hnn : ∀ c ∈ l, 0 ≤ c.2.2) (hne : l ≠ []) : ∃ pr, firstBest l = some pr := by
  induction l with
  | nil => exact absurd rfl hne
  | cons c rest ih =>
      rw [firstBest]
      by_cases hm : bestScore rest ≤ c.2.2
      · rw [if_pos hm]
        exact ⟨(c.1, c.2.1), rfl⟩
      · rw [if_neg hm]
        have hc : 0 ≤ c.2.2 := hnn c (List.mem_cons_self c rest)
        have hrest : rest ≠ [] := by
          intro hr
          rw [hr] at hm
          rw [bestScore] at hm
          omega
        exact ih (fun x hx => hnn x (List.mem_cons_of_mem c hx)) hrest

theorem resolve_dataset_snd (search : String → Except String (List Package))
    (st : SourceStatus) (intent : SeriesIntent) :
    (resolve_dataset search st intent).2
      = (resolve_go search intent.candidate_queries none (-1) st).2 := by
  simp only [resolve_dataset]
  split <;> rfl

theorem resolve_go_dg_false_mono (search : String → Except String (List Package))
    (qs : List String) (b : Option (Package × Resource)) (s : Int) (st : SourceStatus)
    (h : st.data_gov_sg.ok = false) :
    (resolve_go search qs b s st).2.data_gov_sg.ok = false := by
  induction qs generalizing b s st with
  | nil => exact h
  | cons q t ih =>
      rw [resolve_go]
      cases search q with
      | error e => exact ih _ _ _ rfl
      | ok packages => exact ih _ _ _ h

theorem resolve_go_dg_fail (search : String → Except String (List Package))
    (qs : List String) (b : Option (Package × Resource)) (s : Int) (st : SourceStatus)
    (h : ∃ q ∈ qs, ∃ e, search q = Except.error e) :
    (resolve_go search qs b s st).2.data_gov_sg.ok = false := by
  induction qs generalizing b s st with
  | nil => rcases h with ⟨q, hq, _⟩; cases hq
  | cons q t ih =>
      rw [resolve_go]
      rcases h with ⟨q', hq', e, he⟩
      rcases List.mem_cons.mp hq' with hq1 | hq2
      · subst hq1
        rw [he]
        exact resolve_go_dg_false_mono search t _ _ _ rfl
      · cases hs : search q with
        | error e2 => exact resolve_go_dg_false_mono search t _ _ _ rfl
        | ok packages => exact ih _ _ _ ⟨q', hq2, e, he⟩

/-- C4: the resolver returns the first-encountered CSV-bearing candidate
attaining the maximal score across all queries (strict-greater updates
make the first global maximum win), paired with that dataset's first CSV
resource; datasets without a CSV resource are skipped; it returns
`(absent, absent)` exactly when no CSV-bearing candidate was seen; and a
failed catalog search marks the `data_gov_sg` reachability status failed
while resolution continues. -/
theorem claim_C4_resolver (search : String → Except String (List Package))
    (st : SourceStatus) (intent : SeriesIntent) :
    ((resolve_dataset search st intent).1
      = match firstBest (csvCandidates search intent.candidate_queries) with
        | some pr => (some pr.1, some pr.2)
        | none => (none, none))
    ∧ ((resolve_dataset search st intent).1 = (none, none)
        ↔ csvCandidates search intent.candidate_queries = [])
    ∧ ((∃ q ∈ intent.candidate_queries, ∃ e, search q = Except.error e)
        → (resolve_dataset search st intent).2.data_gov_sg.ok = false) := by
  have hnn := csvCandidates_scores_nonneg search intent.candidate_queries
  have hfold := resolve_go_fst_eq_candFold search intent.candidate_queries none (-1) st
  have hspec := candFold_spec (csvCandidates search intent.candidate_queries) none (-1)
    (by omega) hnn
  have hfst : (resolve_go search intent.candidate_queries none (-1) st).1
      = firstBest (csvCandidates search intent.candidate_queries) := by
    rw [hfold, hspec]
    cases hl : csvCandidates search intent.candidate_queries with
    | nil =>
        rw [bestScore, if_neg (by omega), firstBest]
    | cons c rest =>
        have hc : 0 ≤ c.2.2 := by
          rw [hl] at hnn
          exact hnn c (List.mem_cons_self c rest)
        rw [bestScore, if_pos (by omega : (-1 : Int) < max c.2.2 (bestScore rest))]
  have hmain : (resolve_dataset search st intent).1
      = match firstBest (csvCandidates search intent.candidate_queries) with
        | some pr => (some pr.1, some pr.2)
        | none => (none, none) := by
    simp only [resolve_dataset]
    rw [hfst]
    cases firstBest (csvCandidates search intent.candidate_queries) with
    | none => rfl
    | some pr => rfl
  refine ⟨hmain, ?_, ?_⟩
  · rw [hmain]
    constructor
    · intro hres
      by_contra hne
      rcases firstBest_isSome _ hnn hne with ⟨pr, hpr⟩
      rw [hpr] at hres
      cases hres
    · intro hnil
      rw [hnil, firstBest]
  · intro hex
    rw [resolve_dataset_snd]
    exact resolve_go_dg_fail search _ _ _ _ hex

/-- Witness for C4: with a catalog that always throws, resolution yields
no dataset and the `data_gov_sg` status is marked failed. -/
theorem claim_C4_witness :
    (resolve_dataset (fun _ => Except.error "boom") initSourceStatus (intentAt 0)).1
      = (none, none)
    ∧ (resolve_dataset (fun _ => Except.error "boom") initSourceStatus
        (intentAt 0)).2.data_gov_sg.ok = false := by
  have h := claim_C4_resolver (fun _ => Except.error "boom") initSourceStatus (intentAt 0)
  constructor
  · exact h.2.1.mpr (by with_unfolding_all rfl)
  · exact h.2.2 ⟨"SORA", by with_unfolding_all decide, "boom", rfl⟩

theorem slope_shape (m : List (String × ResolvedSeries)) (s : ResolvedSeries)
    (h : derive_curve_slope m = some s) :
    s.data ≠ [] ∧ s.last_observation_period = some ((s.data.getLastD ("", 0)).1) := by
  have hbase : (if (dataOf m "sgs_yield_2y").isEmpty then dataOf m "sgs_yield_1y"
      else dataOf m "sgs_yield_2y") = baseOf m := by
    unfold baseOf
    by_cases h2 : dataOf m "sgs_yield_2y" = []
    · simp [h2]
    · simp [h2, List.isEmpty_iff]
  simp only [derive_curve_slope] at h
  rw [hbase] at h
  set bigdata := (List.insertionSort (fun a b => a ≤ b)
    ((((dataOf m "sgs_yield_10y").map Prod.fst).dedup).filter
      (fun p => decide (p ∈ (baseOf m).map Prod.fst)))).map
    (fun p => (p, (lastVal (dataOf m "sgs_yield_10y") p).getD 0
      - (lastVal (baseOf m) p).getD 0)) with hbig
  by_cases h1 : ((dataOf m "sgs_yield_10y").isEmpty || (baseOf m).isEmpty) = true
  · rw [if_pos h1] at h
    cases h
  · rw [if_neg h1] at h
    by_cases h2 : bigdata.isEmpty = true
    · rw [if_pos h2] at h
      cases h
    · rw [if_neg h2] at h
      cases h
      refine ⟨?_, rfl⟩
      intro hnil
      have hb : bigdata = [] := hnil
      exact h2 (by rw [List.isEmpty_iff]; exact hb)

theorem ma_shape (s : ResolvedSeries) (w : Nat) (d : ResolvedSeries) (hw : 1 ≤ w)
    (h : derive_moving_average s w = some d) :
    d.data ≠ [] ∧ d.last_observation_period = some ((d.data.getLastD ("", 0)).1) := by
  simp only [derive_moving_average] at h
  by_cases h1 : s.data.length < w
  · rw [if_pos h1] at h
    cases h
  · rw [if_neg h1] at h
    cases h
    refine ⟨?_, rfl⟩
    intro hnil
    have hlen := congrArg List.length hnil
    simp only [List.length_map, List.length_range', List.length_nil] at hlen
    omega

theorem ma_at_shape (m : List (String × ResolvedSeries)) (raw : String) (w : Nat)
    (d : ResolvedSeries) (hw : 1 ≤ w) (h : derive_moving_average_at m raw w = some d) :
    d.data ≠ [] ∧ d.last_observation_period = some ((d.data.getLastD ("", 0)).1) := by
  unfold derive_moving_average_at at h
  cases hl : m.lookup raw with
  | none => rw [hl] at h; cases h
  | some s => rw [hl] at h; exact ma_shape s w d hw h

theorem apply_derived_lookup_derived (pay : List (String × ResolvedSeries))
    (stat : List (String × SeriesStatus))
    (h1p : pay.lookup "yield_curve_slope" = none)
    (h1s : stat.lookup "yield_curve_slope" = none)
    (h2p : pay.lookup "private_resi_transactions_ma3" = none)
    (h2s : stat.lookup "private_resi_transactions_ma3" = none)
    (h3p : pay.lookup "dev_sales_uncompleted_sold_ma3" = none)
    (h3s : stat.lookup "dev_sales_uncompleted_sold_ma3" = none) :
    ((apply_derived pay stat).1.lookup "yield_curve_slope" = derive_curve_slope pay
     ∧ (apply_derived pay stat).2.lookup "yield_curve_slope"
        = (derive_curve_slope pay).map
            (fun d => (⟨true, d.last_observation_period, ""⟩ : SeriesStatus)))
    ∧ ((apply_derived pay stat).1.lookup "private_resi_transactions_ma3"
        = derive_moving_average_at pay "private_resi_transactions" 3
       ∧ (apply_derived pay stat).2.lookup "private_resi_transactions_ma3"
        = (derive_moving_average_at pay "private_resi_transactions" 3).map
            (fun d => (⟨true, d.last_observation_period, ""⟩ : SeriesStatus)))
    ∧ ((apply_derived pay stat).1.lookup "dev_sales_uncompleted_sold_ma3"
        = derive_moving_average_at pay "dev_sales_uncompleted_sold" 3
       ∧ (apply_derived pay stat).2.lookup "dev_sales_uncompleted_sold_ma3"
        = (derive_moving_average_at pay "dev_sales_uncompleted_sold" 3).map
            (fun d => (⟨true, d.last_observation_period, ""⟩ : SeriesStatus))) := by
  have hne12 : ("yield_curve_slope" : String) ≠ "private_resi_transactions_ma3" := by decide
  have hne13 : ("yield_curve_slope" : String) ≠ "dev_sales_uncompleted_sold_ma3" := by decide
  have hne23 : ("private_resi_transactions_ma3" : String)
      ≠ "dev_sales_uncompleted_sold_ma3" := by decide
  have hraw1a : ("private_resi_transactions" : String) ≠ "yield_curve_slope" := by decide
  have hraw2a : ("dev_sales_uncompleted_sold" : String) ≠ "yield_curve_slope" := by decide
  have hraw2b : ("dev_sales_uncompleted_sold" : String)
      ≠ "private_resi_transactions_ma3" := by decide
  have ho2 : derive_moving_average_at (derivedStep1 pay stat).1 "private_resi_transactions" 3
      = derive_moving_average_at pay "private_resi_transactions" 3 := by
    refine derive_moving_average_at_congr _ _ _ _ ?_
    show ((insert_derived (pay, stat) "yield_curve_slope" (derive_curve_slope pay)).1.lookup
      "private_resi_transactions") = pay.lookup "private_resi_transactions"
    exact (insert_derived_lookup_ne (pay, stat) "yield_curve_slope" "private_resi_transactions"
      (derive_curve_slope pay) hraw1a).1
  have ho3 : derive_moving_average_at (derivedStep2 pay stat).1 "dev_sales_uncompleted_sold" 3
      = derive_moving_average_at pay "dev_sales_uncompleted_sold" 3 := by
    refine derive_moving_average_at_congr _ _ _ _ ?_
    show ((insert_derived (derivedStep1 pay stat) "private_resi_transactions_ma3"
        (derive_moving_average_at (derivedStep1 pay stat).1 "private_resi_transactions" 3)).1.lookup
      "dev_sales_uncompleted_sold") = pay.lookup "dev_sales_uncompleted_sold"
    rw [(insert_derived_lookup_ne (derivedStep1 pay stat) "private_resi_transactions_ma3"
      "dev_sales_uncompleted_sold"
      (derive_moving_average_at (derivedStep1 pay stat).1 "private_resi_transactions" 3)
      hraw2b).1]
    show ((insert_derived (pay, stat) "yield_curve_slope" (derive_curve_slope pay)).1.lookup
      "dev_sales_uncompleted_sold") = pay.lookup "dev_sales_uncompleted_sold"
    exact (insert_derived_lookup_ne (pay, stat) "yield_curve_slope" "dev_sales_uncompleted_sold"
      (derive_curve_slope pay) hraw2a).1
  have base2p : (derivedStep1 pay stat).1.lookup "private_resi_transactions_ma3" = none := by
    show ((insert_derived (pay, stat) "yield_curve_slope" (derive_curve_slope pay)).1.lookup
      "private_resi_transactions_ma3") = none
    rw [(insert_derived_lookup_ne (pay, stat) "yield_curve_slope" "private_resi_transactions_ma3"
      (derive_curve_slope pay) hne12.symm).1]
    exact h2p
  have base2s : (derivedStep1 pay stat).2.lookup "private_resi_transactions_ma3" = none := by
    show ((insert_derived (pay, stat) "yield_curve_slope" (derive_curve_slope pay)).2.lookup
      "private_resi_transactions_ma3") = none
    rw [(insert_derived_lookup_ne (pay, stat) "yield_curve_slope" "private_resi_transactions_ma3"
      (derive_curve_slope pay) hne12.symm).2]
    exact h2s
  have base3p : (derivedStep2 pay stat).1.lookup "dev_sales_uncompleted_sold_ma3" = none := by
    show ((insert_derived (derivedStep1 pay stat) "private_resi_transactions_ma3"
        (derive_moving_average_at (derivedStep1 pay stat).1 "private_resi_transactions" 3)).1.lookup
      "dev_sales_uncompleted_sold_ma3") = none
    rw [(insert_derived_lookup_ne (derivedStep1 pay stat) "private_resi_transactions_ma3"
      "dev_sales_uncompleted_sold_ma3"
      (derive_moving_average_at (derivedStep1 pay stat).1 "private_resi_transactions" 3)
      hne23.symm).1]
    show ((insert_derived (pay, stat) "yield_curve_slope" (derive_curve_slope pay)).1.lookup
      "dev_sales_uncompleted_sold_ma3") = none
    rw [(insert_derived_lookup_ne (pay, stat) "yield_curve_slope" "dev_sales_uncompleted_sold_ma3"
      (derive_curve_slope pay) hne13.symm).1]
    exact h3p
  have base3s : (derivedStep2 pay stat).2.lookup "dev_sales_uncompleted_sold_ma3" = none := by
    show ((insert_derived (derivedStep1 pay stat) "private_resi_transactions_ma3"
        (derive_moving_average_at (derivedStep1 pay stat).1 "private_resi_transactions" 3)).2.lookup
      "dev_sales_uncompleted_sold_ma3") = none
    rw [(insert_derived_lookup_ne (derivedStep1 pay stat) "private_resi_transactions_ma3"
      "dev_sales_uncompleted_sold_ma3"
      (derive_moving_average_at (derivedStep1 pay stat).1 "private_resi_transactions" 3)
      hne23.symm).2]
    show ((insert_derived (pay, stat) "yield_curve_slope" (derive_curve_slope pay)).2.lookup
      "dev_sales_uncompleted_sold_ma3") = none
    rw [(insert_derived_lookup_ne (pay, stat) "yield_curve_slope" "dev_sales_uncompleted_sold_ma3"
      (derive_curve_slope pay) hne13.symm).2]
    exact h3s
  refine ⟨⟨?_, ?_⟩, ⟨?_, ?_⟩, ⟨?_, ?_⟩⟩
  · rw [show apply_derived pay stat = insert_derived (derivedStep2 pay stat)
        "dev_sales_uncompleted_sold_ma3"
        (derive_moving_average_at (derivedStep2 pay stat).1 "dev_sales_uncompleted_sold" 3)
      from rfl]
    rw [(insert_derived_lookup_ne (derivedStep2 pay stat) "dev_sales_uncompleted_sold_ma3"
      "yield_curve_slope"
      (derive_moving_average_at (derivedStep2 pay stat).1 "dev_sales_uncompleted_sold" 3)
      hne13).1]
    rw [show derivedStep2 pay stat = insert_derived (derivedStep1 pay stat)
        "private_resi_transactions_ma3"
        (derive_moving_average_at (derivedStep1 pay stat).1 "private_resi_transactions" 3)
      from rfl]
    rw [(insert_derived_lookup_ne (derivedStep1 pay stat) "private_resi_transactions_ma3"
      "yield_curve_slope"
      (derive_moving_average_at (derivedStep1 pay stat).1 "private_resi_transactions" 3)
      hne12).1]
    show ((insert_derived (pay, stat) "yield_curve_slope" (derive_curve_slope pay)).1.lookup
      "yield_curve_slope") = derive_curve_slope pay
    exact insert_derived_lookup_self_pay (pay, stat) "yield_curve_slope"
      (derive_curve_slope pay) h1p
  · rw [show apply_derived pay stat = insert_derived (derivedStep2 pay stat)
        "dev_sales_uncompleted_sold_ma3"
        (derive_moving_average_at (derivedStep2 pay stat).1 "dev_sales_uncompleted_sold" 3)
      from rfl]
    rw [(insert_derived_lookup_ne (derivedStep2 pay stat) "dev_sales_uncompleted_sold_ma3"
      "yield_curve_slope"
      (derive_moving_average_at (derivedStep2 pay stat).1 "dev_sales_uncompleted_sold" 3)
      hne13).2]
    rw [show derivedStep2 pay stat = insert_derived (derivedStep1 pay stat)
        "private_resi_transactions_ma3"
        (derive_moving_average_at (derivedStep1 pay stat).1 "private_resi_transactions" 3)
      from rfl]
    rw [(insert_derived_lookup_ne (derivedStep1 pay stat) "private_resi_transactions_ma3"
      "yield_curve_slope"
      (derive_moving_average_at (derivedStep1 pay stat).1 "private_resi_transactions" 3)
      hne12).2]
    show ((insert_derived (pay, stat) "yield_curve_slope" (derive_curve_slope pay)).2.lookup
      "yield_curve_slope") = _
    exact insert_derived_lookup_self_stat (pay, stat) "yield_curve_slope"
      (derive_curve_slope pay) h1s
  · rw [show apply_derived pay stat = insert_derived (derivedStep2 pay stat)
        "dev_sales_uncompleted_sold_ma3"
        (derive_moving_average_at (derivedStep2 pay stat).1 "dev_sales_uncompleted_sold" 3)
      from rfl]
    rw [(insert_derived_lookup_ne (derivedStep2 pay stat) "dev_sales_uncompleted_sold_ma3"
      "private_resi_transactions_ma3"
      (derive_moving_average_at (derivedStep2 pay stat).1 "dev_sales_uncompleted_sold" 3)
      hne23).1]
    rw [show derivedStep2 pay stat = insert_derived (derivedStep1 pay stat)
        "private_resi_transactions_ma3"
        (derive_moving_average_at (derivedStep1 pay stat).1 "private_resi_transactions" 3)
      from rfl]
    rw [insert_derived_lookup_self_pay (derivedStep1 pay stat) "private_resi_transactions_ma3"
      (derive_moving_average_at (derivedStep1 pay stat).1 "private_resi_transactions" 3) base2p]
    exact ho2
  · rw [show apply_derived pay stat = insert_derived (derivedStep2 pay stat)
        "dev_sales_uncompleted_sold_ma3"
        (derive_moving_average_at (derivedStep2 pay stat).1 "dev_sales_uncompleted_sold" 3)
      from rfl]
    rw [(insert_derived_lookup_ne (derivedStep2 pay stat) "dev_sales_uncompleted_sold_ma3"
      "private_resi_transactions_ma3"
      (derive_moving_average_at (derivedStep2 pay stat).1 "dev_sales_uncompleted_sold" 3)
      hne23).2]
    rw [show derivedStep2 pay stat = insert_derived (derivedStep1 pay stat)
        "private_resi_transactions_ma3"
        (derive_moving_average_at (derivedStep1 pay stat).1 "private_resi_transactions" 3)
      from rfl]
    rw [insert_derived_lookup_self_stat (derivedStep1 pay stat) "private_resi_transactions_ma3"
      (derive_moving_average_at (derivedStep1 pay stat).1 "private_resi_transactions" 3) base2s]
    rw [ho2]
  · rw [show apply_derived pay stat = insert_derived (derivedStep2 pay stat)
        "dev_sales_uncompleted_sold_ma3"
        (derive_moving_average_at (derivedStep2 pay stat).1 "dev_sales_uncompleted_sold" 3)
      from rfl]
    rw [insert_derived_lookup_self_pay (derivedStep2 pay stat) "dev_sales_uncompleted_sold_ma3"
      (derive_moving_average_at (derivedStep2 pay stat).1 "dev_sales_uncompleted_sold" 3) base3p]
    exact ho3
  · rw [show apply_derived pay stat = insert_derived (derivedStep2 pay stat)
        "dev_sales_uncompleted_sold_ma3"
        (derive_moving_average_at (derivedStep2 pay stat).1 "dev_sales_uncompleted_sold" 3)
      from rfl]
    rw [insert_derived_lookup_self_stat (derivedStep2 pay stat) "dev_sales_uncompleted_sold_ma3"
      (derive_moving_average_at (derivedStep2 pay stat).1 "dev_sales_uncompleted_sold" 3) base3s]
    rw [ho3]

/-- C10: derived series are all-or-nothing: each derived id is present in
the final series dict exactly when its derivation (over the intent-phase
payload) produces something, and then equals it, and the derived id's
entry in the series-status dict is the `Option.map` of the very same
derivation — so a failed spread (missing or empty source, empty inner
join) or a too-short moving-average source leaves no entry for the
derived id in the series payload and none in the series status; and
every derived entry that does appear has non-empty data, carries the
period of its final point as `last_observation_period`, and an ok status
with an empty error string. -/
theorem claim_C10_derived_all_or_nothing (env : FetchEnv) :
    ((run_fetch env).1.series.lookup "yield_curve_slope"
      = derive_curve_slope
          (run_intents_from env SERIES_INTENTS (([], []), initSourceStatus)).1.1)
    ∧ ((run_fetch env).1.series.lookup "private_resi_transactions_ma3"
      = derive_moving_average_at
          (run_intents_from env SERIES_INTENTS (([], []), initSourceStatus)).1.1
          "private_resi_transactions" 3)
    ∧ ((run_fetch env).1.series.lookup "dev_sales_uncompleted_sold_ma3"
      = derive_moving_average_at
          (run_intents_from env SERIES_INTENTS (([], []), initSourceStatus)).1.1
          "dev_sales_uncompleted_sold" 3)
    ∧ ((run_fetch env).2.series_status.lookup "yield_curve_slope"
      = (derive_curve_slope
          (run_intents_from env SERIES_INTENTS (([], []), initSourceStatus)).1.1).map
          (fun d => (⟨true, d.last_observation_period, ""⟩ : SeriesStatus)))
    ∧ ((run_fetch env).2.series_status.lookup "private_resi_transactions_ma3"
      = (derive_moving_average_at
          (run_intents_from env SERIES_INTENTS (([], []), initSourceStatus)).1.1
          "private_resi_transactions" 3).map
          (fun d => (⟨true, d.last_observation_period, ""⟩ : SeriesStatus)))
    ∧ ((run_fetch env).2.series_status.lookup "dev_sales_uncompleted_sold_ma3"
      = (derive_moving_average_at
          (run_intents_from env SERIES_INTENTS (([], []), initSourceStatus)).1.1
          "dev_sales_uncompleted_sold" 3).map
          (fun d => (⟨true, d.last_observation_period, ""⟩ : SeriesStatus)))
    ∧ (∀ did ∈ derivedIds, ∀ s, (run_fetch env).1.series.lookup did = some s →
        s.data ≠ [] ∧ s.last_observation_period = some ((s.data.getLastD ("", 0)).1)
        ∧ (run_fetch env).2.series_status.lookup did
            = some ⟨true, s.last_observation_period, ""⟩) := by
  have hk1 : ∀ i ∈ SERIES_INTENTS, i.id ≠ "yield_curve_slope" := by decide
  have hk2 : ∀ i ∈ SERIES_INTENTS, i.id ≠ "private_resi_transactions_ma3" := by decide
  have hk3 : ∀ i ∈ SERIES_INTENTS, i.id ≠ "dev_sales_uncompleted_sold_ma3" := by decide
  have hb1 := run_payload_no_key env "yield_curve_slope" hk1
  have hb2 := run_payload_no_key env "private_resi_transactions_ma3" hk2
  have hb3 := run_payload_no_key env "dev_sales_uncompleted_sold_ma3" hk3
  have hmain := apply_derived_lookup_derived
    (run_intents_from env SERIES_INTENTS (([], []), initSourceStatus)).1.1
    (run_intents_from env SERIES_INTENTS (([], []), initSourceStatus)).1.2
    hb1.1 hb1.2 hb2.1 hb2.2 hb3.1 hb3.2
  have hs1 : (run_fetch env).1.series.lookup "yield_curve_slope"
      = derive_curve_slope
          (run_intents_from env SERIES_INTENTS (([], []), initSourceStatus)).1.1 := by
    rw [run_fetch_series]
    unfold run_series
    exact hmain.1.1
  have hs2 : (run_fetch env).1.series.lookup "private_resi_transactions_ma3"
      = derive_moving_average_at
          (run_intents_from env SERIES_INTENTS (([], []), initSourceStatus)).1.1
          "private_resi_transactions" 3 := by
    rw [run_fetch_series]
    unfold run_series
    exact hmain.2.1.1
  have hs3 : (run_fetch env).1.series.lookup "dev_sales_uncompleted_sold_ma3"
      = derive_moving_average_at
          (run_intents_from env SERIES_INTENTS (([], []), initSourceStatus)).1.1
          "dev_sales_uncompleted_sold" 3 := by
    rw [run_fetch_series]
    unfold run_series
    exact hmain.2.2.1
  have ht1 : (run_fetch env).2.series_status.lookup "yield_curve_slope"
      = (derive_curve_slope
          (run_intents_from env SERIES_INTENTS (([], []), initSourceStatus)).1.1).map
          (fun d => (⟨true, d.last_observation_period, ""⟩ : SeriesStatus)) := by
    rw [run_fetch_series_status]
    unfold run_series_status
    exact hmain.1.2
  have ht2 : (run_fetch env).2.series_status.lookup "private_resi_transactions_ma3"
      = (derive_moving_average_at
          (run_intents_from env SERIES_INTENTS (([], []), initSourceStatus)).1.1
          "private_resi_transactions" 3).map
          (fun d => (⟨true, d.last_observation_period, ""⟩ : SeriesStatus)) := by
    rw [run_fetch_series_status]
    unfold run_series_status
    exact hmain.2.1.2
  have ht3 : (run_fetch env).2.series_status.lookup "dev_sales_uncompleted_sold_ma3"
      = (derive_moving_average_at
          (run_intents_from env SERIES_INTENTS (([], []), initSourceStatus)).1.1
          "dev_sales_uncompleted_sold" 3).map
          (fun d => (⟨true, d.last_observation_period, ""⟩ : SeriesStatus)) := by
    rw [run_fetch_series_status]
    unfold run_series_status
    exact hmain.2.2.2
  refine ⟨hs1, hs2, hs3, ht1, ht2, ht3, ?_⟩
  intro did hdid s hlk
  have hdid' : did = "yield_curve_slope" ∨ did = "private_resi_transactions_ma3"
      ∨ did = "dev_sales_uncompleted_sold_ma3" := by
    simpa [derivedIds] using hdid
  rcases hdid' with h | h | h
  · subst h
    rw [hs1] at hlk
    have hsh := slope_shape _ s hlk
    refine ⟨hsh.1, hsh.2, ?_⟩
    rw [ht1, hlk]
    rfl
  · subst h
    rw [hs2] at hlk
    have hsh := ma_at_shape _ _ 3 s (by omega) hlk
    refine ⟨hsh.1, hsh.2, ?_⟩
    rw [ht2, hlk]
    rfl
  · subst h
    rw [hs3] at hlk
    have hsh := ma_at_shape _ _ 3 s (by omega) hlk
    refine ⟨hsh.1, hsh.2, ?_⟩
    rw [ht3, hlk]
    rfl

/-- A catalog package with one CSV resource for the moving-average
witness run. -/
def pkgT : Package :=
  { title := some "private residential transactions", org_title := some "URA",
    metadata_modified := some "2024-01-01", resources := [⟨some "CSV", some "u"⟩] }

/-- A three-quarter table for the transactions intent. -/
def dfT : DataFrame :=
  ⟨["quarter", "value"],
   [[some "2024Q1", some "1"], [some "2024Q2", some "2"], [some "2024Q3", some "3"]]⟩

/-- An environment in which exactly the transactions intent resolves and
fetches three quarterly points, so its 3-period moving average exists. -/
def envMA : FetchEnv :=
  { search := fun q =>
      if q = "private residential transactions singapore" then .ok [pkgT] else .ok [],
    fetchCSV := fun _ => .ok dfT,
    toNum := toNumEx, parseDate := parseNone, rmatch := rmatchNone, now := "T" }

/-- Witness for C10: in `envMA` the transactions moving average is
present with an ok, empty-error status carrying its last period, while
the failed slope derivation leaves no entry in the series payload and
none in the series status. -/
theorem claim_C10_witness :
    ((run_fetch envMA).1.series.lookup "private_resi_transactions_ma3").isSome = true
    ∧ (run_fetch envMA).2.series_status.lookup "private_resi_transactions_ma3"
        = some ⟨true, some "2024-Q3", ""⟩
    ∧ (run_fetch envMA).1.series.lookup "yield_curve_slope" = none
    ∧ (run_fetch envMA).2.series_status.lookup "yield_curve_slope" = none := by
  have hthm := claim_C10_derived_all_or_nothing envMA
  have hsome : ((run_fetch envMA).1.series.lookup "private_resi_transactions_ma3").isSome
      = true := by with_unfolding_all rfl
  rcases Option.isSome_iff_exists.mp hsome with ⟨s, hs⟩
  have h := hthm.2.2.2.2.2.2 "private_resi_transactions_ma3"
    (by simp [derivedIds]) s hs
  have hlast : ((run_fetch envMA).1.series.lookup "private_resi_transactions_ma3").map
      (fun r => r.last_observation_period) = some (some "2024-Q3") := by
    with_unfolding_all rfl
  rw [hs] at hlast
  have hlast' : s.last_observation_period = some "2024-Q3" := Option.some.inj hlast
  have hnone : derive_curve_slope
      (run_intents_from envMA SERIES_INTENTS (([], []), initSourceStatus)).1.1 = none := by
    with_unfolding_all rfl
  refine ⟨hsome, ?_, ?_, ?_⟩
  · rw [h.2.2, hlast']
  · rw [hthm.1, hnone]
  · rw [hthm.2.2.2.1, hnone]
    rfl

end FetchMacro
